import Mathlib

/-!
# kc_websocket: the KuCoin ticker client

A shallow embedding of `src/kc_websocket/websocket_base.cpp` and of the
`main` function of `src/kc_websocket/kc_websocket.cpp`.

* C++ exceptions, failed assertions and violated library preconditions are
  values of `Failure`; a function that can end in one returns `Except Failure _`.
* `assert` and `RAPIDJSON_ASSERT` depend on the build: the parameter `ndebug`
  says whether `NDEBUG` is defined.
* a `std::string` or `char const *` is a `String` whose characters stand for
  its `char`s, one each, so that lengths and positions count `char`s.
* `rapidjson::Document::Parse` is a collaborator: the functions below take the
  document it produced (`Json`), a text that is not JSON giving `Json.null`.
* a `double` is the rational it denotes, or an infinity, or NaN; conversions
  round to the nearest binary64 value, ties to even (`roundBinary64`). The two
  zeros are one value.
* the asynchronous operations that are outstanding are the entries of
  `kc_websocket.m_ioContext`; the completion of one is an `Event`, and `step`
  runs its completion handler. The environment is not constrained further: any
  outstanding operation may complete, with any error code.
* time (deadlines, keep-alive) and logging are not modelled.
-/

namespace korrelator

/-! ## Failures -/

/-- The ways in which a call can end without returning. -/
inductive Failure
  /-- `assert(e)` or `RAPIDJSON_ASSERT(e)` with `e` false, `NDEBUG` not defined. -/
  | assertion
  /-- A library precondition is violated and nothing checks it. -/
  | undefinedBehaviour
  /-- `std::invalid_argument` is thrown. -/
  | invalid_argument
  /-- `std::out_of_range` is thrown. -/
  | out_of_range
  deriving DecidableEq, Repr

deriving instance DecidableEq for Except

/-- `assert(cond)` of `<cassert>`: nothing when `NDEBUG` is defined. -/
def cassert (ndebug : Bool) (cond : Bool) : Except Failure Unit :=
  if cond || ndebug then .ok () else .error .assertion

/-- `RAPIDJSON_ASSERT(cond)`, which is `assert(cond)` by default: with `NDEBUG`
defined the precondition is not checked and its violation is undefined. -/
def RAPIDJSON_ASSERT (ndebug : Bool) (cond : Bool) : Except Failure Unit :=
  if cond then .ok () else if ndebug then .error .undefinedBehaviour else .error .assertion

/-! ## Strings -/

/-- `std::string::npos`, the largest `size_t`. -/
def npos : Nat := 2 ^ 64 - 1

/-- The conversion of a `size_t` to `int`: the low 32 bits, read as two's complement. -/
def toInt32 (n : Nat) : Int :=
  if n % 2 ^ 32 < 2 ^ 31 then (n % 2 ^ 32 : Nat) else (n % 2 ^ 32 : Nat) - 2 ^ 32

/-- The conversion of an `int` to `size_t`. -/
def toSizeT (i : Int) : Nat := (i % 2 ^ 64).toNat

/-- The characters of a `char const *` up to its terminating NUL: what the
constructor `std::string(char const *)` copies. -/
def c_str (s : String) : String := ⟨s.data.takeWhile (fun c => c != Char.ofNat 0)⟩

/-- The first position at which `pat` occurs in the character list, if any. -/
def findIdx (pat : List Char) : List Char → Option Nat
  | [] => if pat.isPrefixOf [] then some 0 else none
  | c :: cs => if pat.isPrefixOf (c :: cs) then some 0 else (findIdx pat cs).map (· + 1)

/-- `std::string::find(char const *)`: the first position of `pat` in `s`, or `npos`. -/
def find (s pat : String) : Nat :=
  match findIdx pat.data s.data with
  | some i => i
  | none => npos

/-- `std::string::substr(pos)`: the characters from `pos` on; `std::out_of_range`
when `pos` is beyond the size. -/
def substr (s : String) (pos : Nat) : Except Failure String :=
  if pos > s.length then .error .out_of_range else .ok ⟨s.data.drop pos⟩

/-! ## double and std::stod -/

/-- A `double`: a finite value, as the rational it denotes, an infinity, or NaN. -/
inductive Double
  | finite (q : ℚ)
  | infinity (negative : Bool)
  | nan
  deriving DecidableEq

/-- `isspace` in the "C" locale. -/
def isspace (c : Char) : Bool :=
  c == ' ' || (9 ≤ c.toNat && c.toNat ≤ 13)

/-- The value of a decimal digit. -/
def decDigit (c : Char) : Option Nat :=
  if '0'.toNat ≤ c.toNat ∧ c.toNat ≤ '9'.toNat then some (c.toNat - '0'.toNat) else none

/-- The value of a hexadecimal digit. -/
def hexDigit (c : Char) : Option Nat :=
  if '0'.toNat ≤ c.toNat ∧ c.toNat ≤ '9'.toNat then some (c.toNat - '0'.toNat)
  else if 'a'.toNat ≤ c.toNat ∧ c.toNat ≤ 'f'.toNat then some (c.toNat - 'a'.toNat + 10)
  else if 'A'.toNat ≤ c.toNat ∧ c.toNat ≤ 'F'.toNat then some (c.toNat - 'A'.toNat + 10)
  else none

/-- Reads the longest run of digits in the given base: the accumulated value,
the number of digits read, and the rest. -/
def readDigits (digit : Char → Option Nat) (base : Nat) :
    List Char → Nat → Nat → Nat × Nat × List Char
  | [], acc, n => (acc, n, [])
  | c :: cs, acc, n =>
    match digit c with
    | some d => readDigits digit base cs (acc * base + d) (n + 1)
    | none => (acc, n, c :: cs)

/-- Reads digits, an optional radix point, digits: the value of all the digits
read as one integer, how many there were, and how many followed the point. -/
def readMantissa (digit : Char → Option Nat) (base : Nat) (cs : List Char) :
    Nat × Nat × Nat × List Char :=
  match readDigits digit base cs 0 0 with
  | (m, n, '.' :: rest) =>
    (match readDigits digit base rest m 0 with
     | (m2, f, rest2) => (m2, n + f, f, rest2))
  | (m, n, rest) => (m, n, 0, rest)

/-- Reads an exponent part, `marker` (in either case) then an optional sign
then at least one decimal digit; `0` when there is none. -/
def readExponent (marker : Char) (cs : List Char) : Int :=
  match cs with
  | [] => 0
  | c :: rest =>
    if c.toLower == marker then
      match rest with
      | '-' :: ds =>
        (match readDigits decDigit 10 ds 0 0 with
         | (e, n, _) => if n = 0 then 0 else - (e : Int))
      | '+' :: ds =>
        (match readDigits decDigit 10 ds 0 0 with
         | (e, n, _) => if n = 0 then 0 else (e : Int))
      | ds =>
        (match readDigits decDigit 10 ds 0 0 with
         | (e, n, _) => if n = 0 then 0 else (e : Int))
    else 0

/-- The rational `m * base ^ e`. -/
def scale (m : Nat) (base : Nat) (e : Int) : ℚ :=
  if 0 ≤ e then (m : ℚ) * (base : ℚ) ^ e.toNat else (m : ℚ) / (base : ℚ) ^ (-e).toNat

/-- The magnitude denoted by the text after the sign, if it starts with one of
the forms `strtod` accepts: a decimal or hexadecimal floating constant, `inf`
or `nan` (in any case). -/
def readMagnitude (cs : List Char) : Option (Option ℚ ⊕ Unit) :=
  let lower := cs.map Char.toLower
  if ['i', 'n', 'f'].isPrefixOf lower then some (.inl none)
  else if ['n', 'a', 'n'].isPrefixOf lower then some (.inr ())
  else
    let hex : Option ℚ :=
      match lower with
      | '0' :: 'x' :: rest =>
        (match readMantissa hexDigit 16 rest with
         | (m, n, f, rest2) =>
           if n = 0 then none else some (scale m 2 (readExponent 'p' rest2 - 4 * (f : Int))))
      | _ => none
    match hex with
    | some q => some (.inl (some q))
    | none =>
      match readMantissa decDigit 10 cs with
      | (m, n, f, rest) =>
        if n = 0 then none else some (.inl (some (scale m 10 (readExponent 'e' rest - (f : Int)))))

/-- The halvings that bring `n` below 2, at most `fuel` of them. -/
def log2Fuel : Nat → Nat → Nat
  | 0, _ => 0
  | fuel + 1, n => if 2 ≤ n then log2Fuel fuel (n / 2) + 1 else 0

/-- The integer part of the base 2 logarithm of a positive natural number. -/
def ilog2 (n : Nat) : Nat := log2Fuel n n

/-- The integer part of the base 2 logarithm of a positive rational. -/
def floorLog2 (q : ℚ) : Int :=
  let e : Int := (ilog2 q.num.natAbs : Int) - (ilog2 q.den : Int)
  if scale 1 2 e ≤ q then e else e - 1

/-- The integer nearest to a rational that is not negative, the even one of two
that are equally near. -/
def roundHalfEven (q : ℚ) : Nat :=
  let whole := q.num.natAbs / q.den
  let rest := q.num.natAbs % q.den
  if 2 * rest < q.den then whole
  else if q.den < 2 * rest then whole + 1
  else if whole % 2 = 0 then whole
  else whole + 1

/-- A rational that is not negative, rounded to the nearest multiple of `2 ^ k`,
to the even multiple of two that are equally near. -/
def roundToGrid (q : ℚ) (k : Int) : ℚ :=
  scale (roundHalfEven (q / scale 1 2 k)) 2 k

/-- A magnitude rounded to 53 significant bits, whatever its exponent. -/
def roundSignificand (q : ℚ) : ℚ := roundToGrid q (floorLog2 q - 52)

/-- A magnitude rounded to binary64: to 53 significant bits, and to a multiple of
`2 ^ -1074` below the normal range. A result of `2 ^ 1024` stands for overflow. -/
def roundBinary64 (q : ℚ) : ℚ := roundToGrid q (max (floorLog2 q - 52) (-1074))

/-- The conversion of a number to `double`, as `static_cast<double>` does it:
the nearest binary64 value, an infinity when that is beyond the finite ones. -/
def toBinary64 (q : ℚ) : Double :=
  let rounded := roundBinary64 (if q < 0 then -q else q)
  if (2 : ℚ) ^ 1024 ≤ rounded then .infinity (decide (q < 0))
  else .finite (if q < 0 then -rounded else rounded)

/-- Whether `strtod` reports underflow (`ERANGE`) for the magnitude `q`, as glibc
does on x86-64: the value, rounded to 53 significant bits, is below the normal
range and it is not a binary64 value itself. -/
def underflows (q : ℚ) : Bool :=
  decide (roundSignificand q < scale 1 2 (-1022)) && decide (roundToGrid q (-1074) ≠ q)

/-- `std::stod(char const *)`, with the `strtod` of glibc: skips white space,
reads an optional sign and the longest text `strtod` accepts, and rounds its
value to binary64. `std::invalid_argument` when there is no such text, and
`std::out_of_range` when `strtod` reports a range error: the rounded value is
beyond the finite ones, or the value underflows. -/
def stod (s : String) : Except Failure Double :=
  let cs := s.data.dropWhile isspace
  let (negative, body) : Bool × List Char :=
    match cs with
    | '-' :: rest => (true, rest)
    | '+' :: rest => (false, rest)
    | _ => (false, cs)
  match readMagnitude body with
  | none => .error .invalid_argument
  | some (.inr ()) => .ok .nan
  | some (.inl none) => .ok (.infinity negative)
  | some (.inl (some q)) =>
    if (2 : ℚ) ^ 1024 ≤ roundBinary64 q then .error .out_of_range
    else if underflows q then .error .out_of_range
    else .ok (.finite (if negative then -roundBinary64 q else roundBinary64 q))

/-! ## The JSON document model of rapidjson -/

/-- A parsed JSON value. Numbers keep the distinction rapidjson makes between
an integer and a double; an object keeps its members in document order. -/
inductive Json
  | null
  | bool (b : Bool)
  | int (n : Int)
  | real (q : ℚ)
  | str (s : String)
  | arr (items : List Json)
  | obj (members : List (String × Json))

namespace rapidjson

/-- The enumeration `rapidjson::Type` (`Type` is reserved in Lean). -/
inductive ValueType
  | kNullType
  | kFalseType
  | kTrueType
  | kObjectType
  | kArrayType
  | kStringType
  | kNumberType
  deriving DecidableEq, Repr

end rapidjson

namespace Json

/-- `GenericValue::GetType`. -/
def GetType : Json → rapidjson.ValueType
  | null => .kNullType
  | bool false => .kFalseType
  | bool true => .kTrueType
  | int _ => .kNumberType
  | real _ => .kNumberType
  | str _ => .kStringType
  | arr _ => .kArrayType
  | obj _ => .kObjectType

/-- `GenericValue::IsString`. -/
def IsString : Json → Bool
  | str _ => true
  | _ => false

/-- `GenericValue::IsObject`. -/
def IsObject : Json → Bool
  | obj _ => true
  | _ => false

/-- `GenericValue::GetObject`: asserts `IsObject()`. -/
def GetObject (ndebug : Bool) : Json → Except Failure (List (String × Json))
  | obj members => .ok members
  | _ => (RAPIDJSON_ASSERT ndebug false).bind fun _ => .error .undefinedBehaviour

/-- `GenericValue::GetArray`: asserts `IsArray()`. -/
def GetArray (ndebug : Bool) : Json → Except Failure (List Json)
  | arr items => .ok items
  | _ => (RAPIDJSON_ASSERT ndebug false).bind fun _ => .error .undefinedBehaviour

/-- `GenericValue::GetString`, read by its callers as a `char const *`: asserts
`IsString()`, and the text ends at the first NUL. -/
def GetString (ndebug : Bool) : Json → Except Failure String
  | str s => .ok (c_str s)
  | _ => (RAPIDJSON_ASSERT ndebug false).bind fun _ => .error .undefinedBehaviour

/-- `GenericValue::GetBool`: asserts `IsBool()`. -/
def GetBool (ndebug : Bool) : Json → Except Failure Bool
  | bool b => .ok b
  | _ => (RAPIDJSON_ASSERT ndebug false).bind fun _ => .error .undefinedBehaviour

/-- `GenericValue::GetInt`: asserts `IsInt()`, an integer that fits `int`. -/
def GetInt (ndebug : Bool) : Json → Except Failure Int
  | int n =>
    if -(2 ^ 31) ≤ n ∧ n < 2 ^ 31 then .ok n
    else (RAPIDJSON_ASSERT ndebug false).bind fun _ => .error .undefinedBehaviour
  | _ => (RAPIDJSON_ASSERT ndebug false).bind fun _ => .error .undefinedBehaviour

/-- `GenericValue::GetDouble`: asserts `IsNumber()`; an integer is converted to
`double`, and so is the value of a `real`, which changes nothing when it is the
binary64 value the parser stored. -/
def GetDouble (ndebug : Bool) : Json → Except Failure Double
  | int n => .ok (toBinary64 n)
  | real q => .ok (toBinary64 q)
  | _ => (RAPIDJSON_ASSERT ndebug false).bind fun _ => .error .undefinedBehaviour

end Json

/-- `GenericObject::FindMember(name)`: the value of the first member called
`name`; `none` stands for `MemberEnd()`. -/
def FindMember (members : List (String × Json)) (name : String) : Option Json :=
  (members.find? fun m => m.1 == name).map Prod.snd

/-! ## The ticker decoder -/

/-- The constant `spot_data_topic`. -/
def spot_data_topic : String := "/market/ticker:"

/-- The constant `futures_data_topic`. -/
def futures_data_topic : String := "/contractMarket/ticker:"

/-- The constant `spot_data_topic_len`, `strlen(spot_data_topic)`. -/
def spot_data_topic_len : Nat := spot_data_topic.length

/-- The constant `futures_data_topic_len`, `strlen(futures_data_topic)`. -/
def futures_data_topic_len : Nat := futures_data_topic.length

/-- The function `kuCoinGetCoinPrice`, on the document `d` that `d.Parse(str, size)`
produced. `none` is `std::nullopt`. -/
def kuCoinGetCoinPrice (ndebug : Bool) (d : Json) (isSpot : Bool) :
    Except Failure (Option (String × Double)) :=
  (d.GetObject ndebug).bind fun jsonObject =>
  match FindMember jsonObject "topic" with
  | none => .ok none
  | some topicValue =>
    if !topicValue.IsString then .ok none
    else
      (topicValue.GetString ndebug).bind fun topic =>
      let topicChar := if isSpot then spot_data_topic else futures_data_topic
      let indexOfTopic : Int := toInt32 (find topic topicChar)
      if indexOfTopic == -1 then .ok none
      else
        match FindMember jsonObject "data" with
        | none => .ok none
        | some dataValue =>
          (dataValue.GetObject ndebug).bind fun dataObject =>
          let priceIter := FindMember dataObject "price"
          let expectedType :=
            if isSpot then rapidjson.ValueType.kStringType else rapidjson.ValueType.kNumberType
          match priceIter with
          | none => (cassert ndebug false).bind fun _ => .ok none
          | some priceValue =>
            if priceValue.GetType != expectedType then
              (cassert ndebug false).bind fun _ => .ok none
            else
              (if isSpot then substr topic (toSizeT (toInt32 spot_data_topic_len))
               else substr topic (toSizeT (toInt32 futures_data_topic_len))).bind fun tokenName =>
              (if isSpot then (priceValue.GetString ndebug).bind stod
               else priceValue.GetDouble ndebug).bind fun price =>
              .ok (some (tokenName, price))

/-! ## Random values -/

/-- `std::uniform_int_distribution<>(a, b)` applied to a raw output of the
generator: a value of the closed range from `a` to `b`. -/
def uniform_int_distribution (a b : Nat) (raw : Nat) : Nat := a + raw % (b - a + 1)

/-- The function `get_random_integer`, on the raw output `raw` of its generator. -/
def get_random_integer (raw : Nat) : Nat := uniform_int_distribution 1 100 raw

/-- The table `allAlphas` of `get_random_char`. -/
def allAlphas : List Char := "abcdefghijklmnopqrstuvwxyzABCDEFGHIJKLMNOPQRSTUVWXYZ_".data

/-- The function `get_random_char`, on the raw output `raw` of its generator. -/
def get_random_char (raw : Nat) : Char := allAlphas.getD (uniform_int_distribution 0 52 raw) '_'

/-- The function `get_random_string`: `gen i` is the raw output of the generator
at the `i`-th call of `get_random_char`. -/
def get_random_string (length : Nat) (gen : Nat → Nat) : String :=
  ⟨(List.range length).map fun i => get_random_char (gen i)⟩

/-! ## The client -/

/-- The constant `kucoin_spot_api_url`. -/
def kucoin_spot_api_url : String := "api.kucoin.com"

/-- The constant `kucoin_futures_api_url`. -/
def kucoin_futures_api_url : String := "api-futures.kucoin.com"

/-- The constant `kucoin_spot_http_request`. -/
def kucoin_spot_http_request : String :=
  "POST /api/v1/bullet-public HTTP/1.1\r\nHost: api.kucoin.com\r\nAccept: */*\r\n" ++
  "Content-Type: application/json\r\nUser-Agent: postman\r\n\r\n"

/-- The constant `kucoin_futures_http_request`. -/
def kucoin_futures_http_request : String :=
  "POST /api/v1/bullet-public HTTP/1.1\r\nHost: api-futures.kucoin.com\r\nAccept: */*\r\n" ++
  "Content-Type: application/json\r\nUser-Agent: postman\r\n\r\n"

/-- The enumeration `trade_type_e`; it is declared in `websocket_base.hpp`, which
is not among the sources, and has the two values the sources use. -/
inductive trade_type_e
  | spot
  | futures
  deriving DecidableEq, Repr

/-- The record `instance_server_data_t`, one relay of the bootstrap response; it
is declared in `websocket_base.hpp`, which is not among the sources, and has the
fields `restApiInterpretHttpResponse` fills. -/
structure instance_server_data_t where
  endpoint : String
  encryptProtocol : Int
  pingIntervalMs : Int
  pingTimeoutMs : Int
  deriving DecidableEq, Repr

/-- An asynchronous operation the client has started and whose completion
handler has not run yet; one constructor for each place that starts one. -/
inductive AsyncOp
  /-- `async_resolve(url, "https")` of `restApiInitiateConnection`. -/
  | restResolve (url : String)
  /-- `async_connect` of `restApiConnectToResolvedNames`. -/
  | restConnect
  /-- The TLS `async_handshake` of `restApiPerformSSLHandshake`. -/
  | restTlsHandshake
  /-- `async_write_some` of `restApiSendRequest`. -/
  | restWrite (request : String)
  /-- `http::async_read` of `restApiReceiveResponse`. -/
  | restRead
  /-- `async_resolve` of `initiateWebsocketConnection`, for the relay `endpoint`. -/
  | wsResolve (endpoint : String)
  /-- `async_connect` of `websockConnectToResolvedNames`. -/
  | wsConnect
  /-- The TLS `async_handshake` of `negotiateWebsocketConnection`. -/
  | wsTlsHandshake
  /-- The WebSocket `async_handshake` of `performWebsocketHandshake`. -/
  | wsHandshake (token connectId : String)
  /-- `async_read` of `waitForMessages`. -/
  | wsRead
  /-- `async_write` of `makeSubscription`. -/
  | wsWrite (text : String)
  deriving DecidableEq, Repr

/-- The state of a `kc_websocket`: the members `websocket_base.cpp` uses (the
class is declared in `websocket_base.hpp`, which is not among the sources). An
engaged `std::optional` member is `true` (or `some`); `m_ioContext` is the list
of operations outstanding on the `io_context`, oldest first; `m_uri` is the
endpoint the `uri` was built from. -/
structure kc_websocket where
  m_ioContext : List AsyncOp
  m_isSpotTrade : Bool
  m_resolver : Bool
  m_sslWebStream : Bool
  m_readWriteBuffer : Option Json
  m_response : Option Json
  m_instanceServers : List instance_server_data_t
  m_websocketToken : String
  m_subscriptionString : String
  m_tokenList : String
  m_uri : String
  m_requestedToStop : Bool
  m_tokensSubscribedFor : Bool

/-- `std::string::empty`. -/
def empty (s : String) : Bool := s.data.isEmpty

/-- Starts the asynchronous operation `op`. -/
def issue (op : AsyncOp) (self : kc_websocket) : kc_websocket :=
  { self with m_ioContext := self.m_ioContext ++ [op] }

/-- The value of `*it` for the result of a `FindMember`; `MemberEnd()` cannot
be dereferenced. -/
def deref (it : Option Json) : Except Failure Json :=
  match it with
  | some v => .ok v
  | none => .error .undefinedBehaviour

/-- The use of `*m_sslWebStream`: the optional has to hold a stream. -/
def requireStream (self : kc_websocket) : Except Failure Unit :=
  if self.m_sslWebStream then .ok () else .error .undefinedBehaviour

namespace kc_websocket

/-- The constructor `kc_websocket::kc_websocket`. -/
def new (tradeType : trade_type_e) : kc_websocket :=
  { m_ioContext := []
    m_isSpotTrade := tradeType == trade_type_e.spot
    m_resolver := false
    m_sslWebStream := false
    m_readWriteBuffer := none
    m_response := none
    m_instanceServers := []
    m_websocketToken := ""
    m_subscriptionString := ""
    m_tokenList := ""
    m_uri := ""
    m_requestedToStop := false
    m_tokensSubscribedFor := false }

/-- The method `restApiInitiateConnection`. -/
def restApiInitiateConnection (self : kc_websocket) : kc_websocket :=
  if self.m_requestedToStop then self
  else
    let self := { self with m_websocketToken := "", m_tokensSubscribedFor := false }
    let url := if self.m_isSpotTrade then kucoin_spot_api_url else kucoin_futures_api_url
    issue (.restResolve url) { self with m_resolver := true }

/-- The method `restApiConnectToResolvedNames`. -/
def restApiConnectToResolvedNames (self : kc_websocket) : kc_websocket :=
  issue .restConnect { self with m_resolver := false, m_sslWebStream := true }

/-- The method `restApiPerformSSLHandshake`; `sniOk` is the result of
`SSL_set_tlsext_host_name`. -/
def restApiPerformSSLHandshake (sniOk : Bool) (self : kc_websocket) :
    Except Failure kc_websocket :=
  (requireStream self).bind fun _ =>
  if !sniOk then .ok self else .ok (issue .restTlsHandshake self)

/-- The method `restApiSendRequest`. -/
def restApiSendRequest (self : kc_websocket) : Except Failure kc_websocket :=
  let request :=
    if self.m_isSpotTrade then kucoin_spot_http_request else kucoin_futures_http_request
  (requireStream self).bind fun _ => .ok (issue (.restWrite request) self)

/-- The method `restApiReceiveResponse`. -/
def restApiReceiveResponse (self : kc_websocket) : Except Failure kc_websocket :=
  let self := { self with m_readWriteBuffer := some .null, m_response := some .null }
  (requireStream self).bind fun _ => .ok (issue .restRead self)

/-- The method `addSubscription`. -/
def addSubscription (tokenName : String) (self : kc_websocket) : kc_websocket :=
  if empty self.m_tokenList then { self with m_tokenList := tokenName }
  else { self with m_tokenList := self.m_tokenList ++ ("," ++ tokenName) }

/-- The method `initiateWebsocketConnection`. -/
def initiateWebsocketConnection (self : kc_websocket) : kc_websocket :=
  if self.m_instanceServers.isEmpty || empty self.m_websocketToken then self
  else
    let servers := self.m_instanceServers.filter fun d => !(d.encryptProtocol == 0)
    let self := { self with m_instanceServers := servers }
    if h : servers = [] then self
    else
      let self := { self with m_uri := (servers.getLast h).endpoint, m_resolver := true }
      issue (.wsResolve self.m_uri) self

/-- The loop of `restApiInterpretHttpResponse` over `instanceServers`. -/
def readInstanceServers (ndebug : Bool) :
    List Json → List instance_server_data_t → Except Failure (List instance_server_data_t)
  | [], acc => .ok acc
  | instanceJson :: rest, acc =>
    (instanceJson.GetObject ndebug).bind fun instanceObject =>
    match FindMember instanceObject "protocol" with
    | none => readInstanceServers ndebug rest acc
    | some protocol =>
      (protocol.GetString ndebug).bind fun protocolName =>
      if protocolName == "websocket" then
        ((deref (FindMember instanceObject "endpoint")).bind (Json.GetString ndebug)).bind
          fun endpoint =>
        ((deref (FindMember instanceObject "encrypt")).bind (Json.GetBool ndebug)).bind
          fun encrypt =>
        ((deref (FindMember instanceObject "pingInterval")).bind (Json.GetInt ndebug)).bind
          fun pingInterval =>
        ((deref (FindMember instanceObject "pingTimeout")).bind (Json.GetInt ndebug)).bind
          fun pingTimeout =>
        readInstanceServers ndebug rest
          (acc ++ [{ endpoint := endpoint, encryptProtocol := if encrypt then 1 else 0,
                     pingIntervalMs := pingInterval, pingTimeoutMs := pingTimeout }])
      else readInstanceServers ndebug rest acc

/-- The method `restApiInterpretHttpResponse`; `m_response` holds the document
the body parses to. Nothing in the `try` block throws a `std::exception` here
(a failed `RAPIDJSON_ASSERT` is not one), so the `catch` clause is idle. -/
def restApiInterpretHttpResponse (ndebug : Bool) (self : kc_websocket) :
    Except Failure kc_websocket :=
  match self.m_response with
  | none => .error .undefinedBehaviour
  | some d =>
    (d.GetObject ndebug).bind fun jsonObject =>
    match FindMember jsonObject "code" with
    | none => .ok self
    | some code =>
      (code.GetString ndebug).bind fun codeText =>
      if codeText != "200000" then .ok self
      else
        match FindMember jsonObject "data" with
        | none => .ok self
        | some dataValue =>
          if !dataValue.IsObject then .ok self
          else
            (dataValue.GetObject ndebug).bind fun dataObject =>
            ((deref (FindMember dataObject "token")).bind (Json.GetString ndebug)).bind
              fun token =>
            ((deref (FindMember dataObject "instanceServers")).bind (Json.GetArray ndebug)).bind
              fun serverInstances =>
            (readInstanceServers ndebug serverInstances []).bind fun servers =>
            let self := { self with m_websocketToken := token, m_instanceServers := servers,
                                    m_response := none, m_readWriteBuffer := none }
            if !self.m_instanceServers.isEmpty && !empty self.m_websocketToken then
              .ok (initiateWebsocketConnection self)
            else .ok self

/-- The method `websockConnectToResolvedNames`. -/
def websockConnectToResolvedNames (self : kc_websocket) : kc_websocket :=
  issue .wsConnect { self with m_resolver := false, m_sslWebStream := true }

/-- The method `negotiateWebsocketConnection`. -/
def negotiateWebsocketConnection (self : kc_websocket) : Except Failure kc_websocket :=
  (requireStream self).bind fun _ => .ok (issue .wsTlsHandshake self)

/-- The method `websockPerformSSLHandshake`; `sniOk` is the result of
`SSL_set_tlsext_host_name`. -/
def websockPerformSSLHandshake (sniOk : Bool) (self : kc_websocket) :
    Except Failure kc_websocket :=
  (requireStream self).bind fun _ =>
  if !sniOk then .ok self else negotiateWebsocketConnection self

/-- The method `performWebsocketHandshake`, its control callback apart (see
`control_callback`); `gen` feeds `get_random_string`. -/
def performWebsocketHandshake (gen : Nat → Nat) (self : kc_websocket) :
    Except Failure kc_websocket :=
  if self.m_instanceServers = [] then .error .undefinedBehaviour
  else
    (requireStream self).bind fun _ =>
    .ok (issue (.wsHandshake self.m_websocketToken (get_random_string 10 gen)) self)

/-- The method `waitForMessages`. -/
def waitForMessages (self : kc_websocket) : Except Failure kc_websocket :=
  let self := { self with m_readWriteBuffer := some .null }
  (requireStream self).bind fun _ => .ok (issue .wsRead self)

/-- The text `makeSubscription` composes for the watch list `tokenList`. -/
def subscriptionText (isSpot : Bool) (id : Nat) (tokenList : String) : String :=
  if isSpot then
    "\x7b\n          \"id\": " ++ toString id ++
    ",\n          \"type\": \"subscribe\",\n          \"topic\": \"/market/ticker:" ++
    tokenList ++ "\",\n          \"response\": false\n        \x7d"
  else
    "\x7b\n          \"id\": " ++ toString id ++
    ",\n          \"type\": \"subscribe\",\n          \"topic\": \"/contractMarket/ticker:" ++
    tokenList ++ "\",\n          \"response\": false\n        \x7d"

/-- The `if (m_subscriptionString.empty())` block of `makeSubscription`; `raw`
feeds `get_random_integer`. -/
def composeSubscription (raw : Nat) (self : kc_websocket) : kc_websocket :=
  if empty self.m_subscriptionString then
    { self with
      m_subscriptionString :=
        subscriptionText self.m_isSpotTrade (get_random_integer raw) self.m_tokenList
      m_tokenList := "" }
  else self

/-- The method `makeSubscription`. -/
def makeSubscription (raw : Nat) (self : kc_websocket) : Except Failure kc_websocket :=
  let self := composeSubscription raw self
  (requireStream self).bind fun _ => .ok (issue (.wsWrite self.m_subscriptionString) self)

/-- The method `interpretGenericMessages`; the decoded pair is only logged. -/
def interpretGenericMessages (ndebug : Bool) (raw : Nat) (self : kc_websocket) :
    Except Failure kc_websocket :=
  if self.m_requestedToStop then .ok self
  else
    match self.m_readWriteBuffer with
    | none => .error .undefinedBehaviour
    | some d =>
      (kuCoinGetCoinPrice ndebug d self.m_isSpotTrade).bind fun _ =>
      if !self.m_tokensSubscribedFor then makeSubscription raw self
      else waitForMessages self

/-- The enumeration `ws::frame_type` of the control callback. -/
inductive frame_type
  | close
  | ping
  | pong
  deriving DecidableEq, Repr

/-- The `error_code` a completion handler receives: none, the cancellation
`net::error::operation_aborted`, or any other error. -/
inductive error_code
  | success
  | operation_aborted
  | failure
  deriving DecidableEq, Repr

/-- What the environment supplies when a completion handler runs: the document
the bytes read parse to, the result of `SSL_set_tlsext_host_name`, and the raw
outputs of the random generator. -/
structure Input where
  document : Json
  sniOk : Bool
  gen : Nat → Nat

/-- The control callback `performWebsocketHandshake` installs on the stream. -/
def control_callback (frameType : frame_type) (self : kc_websocket) : kc_websocket :=
  match frameType with
  | .close => restApiInitiateConnection { self with m_sslWebStream := false }
  | .ping => self
  | .pong => self

/-- The completion handler (the lambda) bound to the operation `op`, run with
the error code `ec`. -/
def handler (ndebug : Bool) (op : AsyncOp) (ec : error_code) (input : Input)
    (self : kc_websocket) : Except Failure kc_websocket :=
  match op with
  | .restResolve _ =>
    if ec != .success then .ok self else .ok (restApiConnectToResolvedNames self)
  | .restConnect =>
    if ec != .success then .ok self else restApiPerformSSLHandshake input.sniOk self
  | .restTlsHandshake =>
    if ec != .success then .ok self else restApiSendRequest self
  | .restWrite _ =>
    if ec != .success then .ok self else restApiReceiveResponse self
  | .restRead =>
    if ec != .success then .ok self
    else if self.m_response.isNone then .error .undefinedBehaviour
    else restApiInterpretHttpResponse ndebug { self with m_response := some input.document }
  | .wsResolve _ =>
    if ec != .success then .ok self else .ok (websockConnectToResolvedNames self)
  | .wsConnect =>
    if ec != .success then .ok self else websockPerformSSLHandshake input.sniOk self
  | .wsTlsHandshake =>
    if ec != .success then .ok self
    else (requireStream self).bind fun _ => performWebsocketHandshake input.gen self
  | .wsHandshake _ _ =>
    if ec != .success then .ok self else waitForMessages self
  | .wsRead =>
    match ec with
    | .operation_aborted => .ok self
    | .failure => .ok (restApiInitiateConnection { self with m_sslWebStream := false })
    | .success =>
      if self.m_readWriteBuffer.isNone then .error .undefinedBehaviour
      else interpretGenericMessages ndebug (input.gen 0)
        { self with m_readWriteBuffer := some input.document }
  | .wsWrite _ =>
    if ec != .success then .ok self
    else waitForMessages { self with m_tokensSubscribedFor := true }

end kc_websocket

open kc_websocket

/-- What can happen to a client: a call of its public interface, the completion
of an outstanding operation, or a control frame met by the outstanding read. -/
inductive Event
  /-- A call of `addSubscription`. -/
  | addSubscription (tokenName : String)
  /-- A call of `startFetching`. -/
  | startFetching
  /-- The request to shut down. -/
  | requestStop
  /-- The operation `op` completes with `ec` and its handler runs. -/
  | complete (op : AsyncOp) (ec : error_code) (input : Input)
  /-- The stream meets a control frame and runs the control callback. -/
  | control (frameType : frame_type)

/-- Modelled from the spec: `startFetching` is declared in `websocket_base.hpp`,
which is not among the sources. "`start()` begins the bootstrap→stream cycle":
it enters `restApiInitiateConnection`. -/
def startFetching (self : kc_websocket) : kc_websocket :=
  restApiInitiateConnection self

/-- Modelled from the spec: the setter of `m_requestedToStop` is declared in
`websocket_base.hpp`, which is not among the sources. "A single shutdown flag":
requesting shutdown sets it. -/
def requestStop (self : kc_websocket) : kc_websocket :=
  { self with m_requestedToStop := true }

/-- Whether the event can happen: a completion needs its operation outstanding,
a control frame an outstanding read. -/
def enabled (self : kc_websocket) : Event → Bool
  | .addSubscription _ => true
  | .startFetching => true
  | .requestStop => true
  | .complete op _ _ => decide (op ∈ self.m_ioContext)
  | .control _ => decide (AsyncOp.wsRead ∈ self.m_ioContext)

/-- One step of the client. A completed operation is no longer outstanding when
its handler runs; the read that meets a control frame still is. -/
def step (ndebug : Bool) (self : kc_websocket) : Event → Except Failure kc_websocket
  | .addSubscription tokenName => .ok (addSubscription tokenName self)
  | .startFetching => .ok (startFetching self)
  | .requestStop => .ok (requestStop self)
  | .complete op ec input =>
    handler ndebug op ec input { self with m_ioContext := self.m_ioContext.erase op }
  | .control frameType => .ok (control_callback frameType self)

/-- Runs the events in order; `none` when one of them cannot happen or a
handler does not return. -/
def run (ndebug : Bool) : kc_websocket → List Event → Option kc_websocket
  | self, [] => some self
  | self, e :: es =>
    if enabled self e then
      match step ndebug self e with
      | .ok next => run ndebug next es
      | .error _ => none
    else none

/-- The states a client can be in after some events. -/
inductive Reachable (ndebug : Bool) (start : kc_websocket) : kc_websocket → Prop
  | refl : Reachable ndebug start start
  | step (self next : kc_websocket) (e : Event) :
      Reachable ndebug start self → enabled self e = true →
      step ndebug self e = .ok next → Reachable ndebug start next

/-! ## Example inputs -/

/-- A candidate list in mixed order: plain, encrypted, encrypted, plain. -/
def exampleCandidates : List instance_server_data_t :=
  [ { endpoint := "ws://plain-1.example/endpoint", encryptProtocol := 0,
      pingIntervalMs := 18000, pingTimeoutMs := 10000 },
    { endpoint := "wss://relay-1.example/endpoint", encryptProtocol := 1,
      pingIntervalMs := 18000, pingTimeoutMs := 10000 },
    { endpoint := "wss://relay-2.example/endpoint", encryptProtocol := 1,
      pingIntervalMs := 18000, pingTimeoutMs := 10000 },
    { endpoint := "ws://plain-2.example/endpoint", encryptProtocol := 0,
      pingIntervalMs := 18000, pingTimeoutMs := 10000 } ]

/-- A client that has received a token and `exampleCandidates`. -/
def exampleBootstrapped : kc_websocket :=
  { kc_websocket.new .spot with
    m_websocketToken := "token", m_instanceServers := exampleCandidates }

/-- Successive calls of `addSubscription`, one for each symbol, in order. -/
def addSubscriptions (symbols : List String) (self : kc_websocket) : kc_websocket :=
  symbols.foldl (fun client tokenName => addSubscription tokenName client) self

/-- The spot ticker frame of the specification, as parsed:
`{"topic":"/market/ticker:BTC-USDT","data":{"price":"50000.5"}}`. -/
def spotTickerFrame : List (String × Json) :=
  [("topic", .str "/market/ticker:BTC-USDT"), ("data", .obj [("price", .str "50000.5")])]

/-- The futures ticker frame of the specification, as parsed:
`{"topic":"/contractMarket/ticker:XBTUSDTM","data":{"price":50000}}`. -/
def futuresTickerFrame : List (String × Json) :=
  [("topic", .str "/contractMarket/ticker:XBTUSDTM"), ("data", .obj [("price", .int 50000)])]

/-- A spot frame whose topic holds the fixed text after one more character:
`{"topic":"x/market/ticker:BTC-USDT","data":{"price":"1"}}`. -/
def shiftedTopicFrame : List (String × Json) :=
  [("topic", .str "x/market/ticker:BTC-USDT"), ("data", .obj [("price", .str "1")])]

/-- A spot frame whose price is a string that is not a number:
`{"topic":"/market/ticker:BTC-USDT","data":{"price":"abc"}}`. -/
def nonNumericPriceFrame : List (String × Json) :=
  [("topic", .str "/market/ticker:BTC-USDT"), ("data", .obj [("price", .str "abc")])]

/-- A spot frame whose topic starts with an escaped NUL:
`{"topic":"\u0000/market/ticker:BTC-USDT","data":{"price":"50000.5"}}`. -/
def nulTopicFrame : List (String × Json) :=
  [("topic", .str "\x00/market/ticker:BTC-USDT"), ("data", .obj [("price", .str "50000.5")])]

/-- The acknowledgement that follows the handshake: `{"id":"hQvf8jkno","type":"welcome"}`. -/
def welcomeFrame : List (String × Json) :=
  [("id", .str "hQvf8jkno"), ("type", .str "welcome")]

/-- A spot frame with a topic and a `data` object without `price`:
`{"topic":"/market/ticker:BTC-USDT","data":{}}`. -/
def noPriceFrame : List (String × Json) :=
  [("topic", .str "/market/ticker:BTC-USDT"), ("data", .obj [])]

/-! ## Reading a message text as JSON

The statements about the subscribe message read its text with `readJson`, a
reader of JSON texts (RFC 8259) whose numbers have no fraction or exponent and
whose strings have no `\u` escape; it gives `none` for every other text. -/

/-- JSON white space. -/
def jsonSpace (c : Char) : Bool := c == ' ' || c == '\n' || c == '\r' || c == '\t'

/-- The text without its leading white space. -/
def dropSpaces (cs : List Char) : List Char := cs.dropWhile jsonSpace

/-- The character that the escape `\e` stands for. -/
def escapeOf (e : Char) : Option Char :=
  if e == '"' then some '"'
  else if e == '\\' then some '\\'
  else if e == '/' then some '/'
  else if e == 'b' then some (Char.ofNat 8)
  else if e == 'f' then some (Char.ofNat 12)
  else if e == 'n' then some '\n'
  else if e == 'r' then some '\r'
  else if e == 't' then some '\t'
  else none

/-- Reads a string from after its opening quote: the characters it denotes and
the text after its closing quote. -/
def readStringBody : List Char → Option (List Char × List Char)
  | [] => none
  | c :: cs =>
    if c == '"' then some ([], cs)
    else if c == '\\' then
      match cs with
      | [] => none
      | e :: rest =>
        match escapeOf e, readStringBody rest with
        | some x, some (body, after) => some (x :: body, after)
        | _, _ => none
    else if c.toNat < 32 then none
    else
      match readStringBody cs with
      | some (body, after) => some (c :: body, after)
      | none => none

/-- Reads an integer: an optional minus sign, then digits without a needless
leading zero, not followed by a fraction or an exponent. -/
def readNumber (cs : List Char) : Option (Json × List Char) :=
  let negative := cs.head? == some '-'
  let digits := if negative then cs.drop 1 else cs
  match readDigits decDigit 10 digits 0 0 with
  | (value, count, after) =>
    if count = 0 then none
    else if digits.head? == some '0' && count != 1 then none
    else if after.head? == some '.' || after.head? == some 'e' || after.head? == some 'E' then
      none
    else some (.int (if negative then -(value : Int) else value), after)

/-- What `readValue` is reading: a value, the members of an object after its
opening brace, or the items of an array after its opening bracket. -/
inductive Reading
  | value
  | members
  | items

/-- Reads a value (or a non-empty member or item list up to its closing
character) at the start of the text, with the text that follows it; `fuel`
bounds the number of nested readings. -/
def readValue : Nat → Reading → List Char → Option (Json × List Char)
  | 0, _, _ => none
  | fuel + 1, .value, cs =>
    match dropSpaces cs with
    | [] => none
    | c :: rest =>
      if c == '{' then
        (if (dropSpaces rest).head? == some '}' then some (.obj [], (dropSpaces rest).drop 1)
         else readValue fuel .members rest)
      else if c == '[' then
        (if (dropSpaces rest).head? == some ']' then some (.arr [], (dropSpaces rest).drop 1)
         else readValue fuel .items rest)
      else if c == '"' then
        (match readStringBody rest with
         | some (body, after) => some (.str ⟨body⟩, after)
         | none => none)
      else if "true".data.isPrefixOf (c :: rest) then some (.bool true, rest.drop 3)
      else if "false".data.isPrefixOf (c :: rest) then some (.bool false, rest.drop 4)
      else if "null".data.isPrefixOf (c :: rest) then some (.null, rest.drop 3)
      else readNumber (c :: rest)
  | fuel + 1, .members, cs =>
    match dropSpaces cs with
    | [] => none
    | c :: rest =>
      if c == '"' then
        match readStringBody rest with
        | none => none
        | some (name, afterName) =>
          if (dropSpaces afterName).head? == some ':' then
            match readValue fuel .value ((dropSpaces afterName).drop 1) with
            | none => none
            | some (v, afterValue) =>
              if (dropSpaces afterValue).head? == some '}' then
                some (.obj [(⟨name⟩, v)], (dropSpaces afterValue).drop 1)
              else if (dropSpaces afterValue).head? == some ',' then
                match readValue fuel .members ((dropSpaces afterValue).drop 1) with
                | some (.obj more, after) => some (.obj ((⟨name⟩, v) :: more), after)
                | _ => none
              else none
          else none
      else none
  | fuel + 1, .items, cs =>
    match readValue fuel .value cs with
    | none => none
    | some (v, afterValue) =>
      if (dropSpaces afterValue).head? == some ']' then
        some (.arr [v], (dropSpaces afterValue).drop 1)
      else if (dropSpaces afterValue).head? == some ',' then
        match readValue fuel .items ((dropSpaces afterValue).drop 1) with
        | some (.arr more, after) => some (.arr (v :: more), after)
        | _ => none
      else none

/-- Reads a whole text as one JSON value. -/
def readJson (text : String) : Option Json :=
  match readValue (text.length + 1) .value text.data with
  | some (v, after) => if dropSpaces after = [] then some v else none
  | none => none

/-- The value of the string member `name` of an object. -/
def stringMember (name : String) : Json → Option String
  | .obj members =>
    (match FindMember members name with
     | some (.str s) => some s
     | _ => none)
  | _ => none

/-- Whether a character stands for itself inside a JSON string: not the quote,
not the backslash, not a control character. -/
def plainChar (c : Char) : Bool := c != '"' && c != '\\' && decide (32 ≤ c.toNat)

/-- The JSON object a subscribe message is meant to be. -/
def subscribeObject (isSpot : Bool) (id : Nat) (symbols : String) : Json :=
  .obj [("id", .int id), ("type", .str "subscribe"),
        ("topic", .str ((if isSpot then spot_data_topic else futures_data_topic) ++ symbols)),
        ("response", .bool false)]

/-- A new client whose stream has been made, as it is when the first frame arrives. -/
def exampleConnected (tradeType : trade_type_e) : kc_websocket :=
  { kc_websocket.new tradeType with m_sslWebStream := true }

/-- The text of the first subscribe message of a new client, after the given
`addSubscription` calls. -/
def firstSubscribeMessage (tradeType : trade_type_e) (symbols : List String) (raw : Nat) :
    Option String :=
  match makeSubscription raw (addSubscriptions symbols (exampleConnected tradeType)) with
  | .ok next => some next.m_subscriptionString
  | .error _ => none

/-! ## The connection states of the specification -/

/-- The connection states the specification names. -/
inductive ConnectionState
  | Idle
  | ResolvingRest
  | ConnectingRest
  | HandshakingRest
  | AwaitingRestResponse
  | ResolvingWs
  | ConnectingWs
  | HandshakingWs
  | NegotiatingWs
  | Subscribing
  | Streaming
  | Stopped
  deriving DecidableEq, Repr

/-- The state of a client with no stage under way: `Stopped` once shutdown has
been requested, `Idle` otherwise. -/
def restingState (self : kc_websocket) : ConnectionState :=
  if self.m_requestedToStop then .Stopped else .Idle

/-- The connection state of the specification, read off the operation started
last among the outstanding ones. A read or write on the stream counts only
while the stream exists; the read is `Streaming` once the subscription has been
confirmed and `Subscribing` before. -/
def connectionState (self : kc_websocket) : ConnectionState :=
  match self.m_ioContext.getLast? with
  | none => restingState self
  | some (.restResolve _) => .ResolvingRest
  | some .restConnect => .ConnectingRest
  | some .restTlsHandshake => .HandshakingRest
  | some (.restWrite _) => .AwaitingRestResponse
  | some .restRead => .AwaitingRestResponse
  | some (.wsResolve _) => .ResolvingWs
  | some .wsConnect => .ConnectingWs
  | some .wsTlsHandshake => .HandshakingWs
  | some (.wsHandshake _ _) => .NegotiatingWs
  | some .wsRead =>
    if self.m_sslWebStream then
      (if self.m_tokensSubscribedFor then .Streaming else .Subscribing)
    else restingState self
  | some (.wsWrite _) =>
    if self.m_sslWebStream then .Subscribing else restingState self

/-! ## Example runs -/

/-- What the environment supplies in the example runs. -/
def exampleInput (document : Json) : Input :=
  { document := document, sniOk := true, gen := fun _ => 41 }

/-- A bootstrap response with one encrypted relay. -/
def bootstrapResponse : Json :=
  .obj [("code", .str "200000"),
        ("data", .obj [("token", .str "token"),
          ("instanceServers", .arr [.obj [("endpoint", .str "wss://relay.example/endpoint"),
            ("protocol", .str "websocket"), ("encrypt", .bool true),
            ("pingInterval", .int 18000), ("pingTimeout", .int 10000)]])])]

/-- The function `main` of `kc_websocket.cpp` up to `ioContext.run()`: the
client it constructs, after the `addSubscription` calls and `startFetching`. -/
def main : kc_websocket :=
  let tradeType := trade_type_e.futures
  let socket := kc_websocket.new tradeType
  let socket :=
    if tradeType == trade_type_e.spot then
      addSubscription "RUNE-USDT" (addSubscription "BTC-USDT" socket)
    else
      addSubscription "ETHUSDTM" (addSubscription "XBTUSDTM" socket)
  startFetching socket

/-- The events of `main` up to the start of the bootstrap: on the futures client,
its two symbols and `startFetching`. -/
def startedRun : List Event :=
  [.addSubscription "XBTUSDTM", .addSubscription "ETHUSDTM", .startFetching]

/-- A run up to the relay resolve: a successful bootstrap. -/
def bootstrapRun : List Event :=
  startedRun ++
  [.complete (.restResolve kucoin_futures_api_url) .success (exampleInput .null),
   .complete .restConnect .success (exampleInput .null),
   .complete .restTlsHandshake .success (exampleInput .null),
   .complete (.restWrite kucoin_futures_http_request) .success (exampleInput .null),
   .complete .restRead .success (exampleInput bootstrapResponse)]

/-- The events from the relay resolve to the read that follows the confirmed
subscription. -/
def sessionEvents : List Event :=
  [.complete (.wsResolve "wss://relay.example/endpoint") .success (exampleInput .null),
   .complete .wsConnect .success (exampleInput .null),
   .complete .wsTlsHandshake .success (exampleInput .null),
   .complete (.wsHandshake "token" "PPPPPPPPPP") .success (exampleInput .null),
   .complete .wsRead .success (exampleInput (.obj welcomeFrame)),
   .complete (.wsWrite (subscriptionText false 42 "XBTUSDTM,ETHUSDTM")) .success
     (exampleInput .null)]

/-- A run up to the streaming state. -/
def streamingRun : List Event := bootstrapRun ++ sessionEvents

/-- The part of a state the examples look at: the outstanding operations, the
stream, the shutdown flag and the connection state. -/
def observe (self : Option kc_websocket) :
    Option (List AsyncOp × Bool × Bool × ConnectionState) :=
  self.map fun client =>
    (client.m_ioContext, client.m_sslWebStream, client.m_requestedToStop, connectionState client)

/-- The state the run of `main` reaches once it streams. -/
def streamingState : kc_websocket :=
  (run false (kc_websocket.new .futures) streamingRun).getD (kc_websocket.new .futures)

/-- The events of a second session after a failed read: the bootstrap again,
then the relay session up to its first frame. -/
def secondSessionEvents : List Event :=
  [.complete .wsRead .failure (exampleInput .null)] ++ bootstrapRun.drop 3 ++ sessionEvents.take 5

/-- The text of the subscribe message outstanding in a state, if there is one. -/
def outstandingSubscribe (self : Option kc_websocket) : Option String :=
  self.bind fun client =>
    client.m_ioContext.findSome? fun op =>
      match op with
      | .wsWrite text => some text
      | _ => none

/-- The events other than the close control frame and a call of `startFetching`. -/
def ordinary : Event → Bool
  | .control .close => false
  | .startFetching => false
  | _ => true

/-! # Theorems -/

/-! ## Helper lemmas -/

/-- The events `startedRun` lead the new futures client to the state of `main`. -/
theorem run_startedRun : run false (kc_websocket.new .futures) startedRun = some main := rfl

theorem empty_eq_true_iff (s : String) : empty s = true ↔ s = "" := by
  cases s with
  | mk data =>
    cases data with
    | nil => simp [empty]
    | cons c cs =>
      simp [empty]
      intro h
      have := congrArg String.data h
      simp at this

theorem empty_append_right (a b : String) (h : empty a = false) : empty (a ++ b) = false := by
  cases a with
  | mk data =>
    cases data with
    | nil => simp [empty] at h
    | cons c cs => simp [empty, String.data_append]

/-- The servers kept by the filter of `initiateWebsocketConnection`, when the
last encrypted one is `relay`. -/
theorem filter_last_encrypted (pre post : List instance_server_data_t)
    (relay : instance_server_data_t) (hrelay : relay.encryptProtocol ≠ 0)
    (hpost : ∀ d ∈ post, d.encryptProtocol = 0) :
    (pre ++ relay :: post).filter (fun d => !(d.encryptProtocol == 0)) =
      pre.filter (fun d => !(d.encryptProtocol == 0)) ++ [relay] := by
  have hp : post.filter (fun d => !(d.encryptProtocol == 0)) = [] := by
    rw [List.filter_eq_nil_iff]
    intro d hd
    simp [hpost d hd]
  simp [List.filter_append, List.filter_cons, hrelay, hp]

/-- C1. Given a non-empty token, `initiateWebsocketConnection` keeps exactly the
encrypted candidates, in order; when `relay` is the last encrypted candidate of
the input it becomes `m_instanceServers.back()`, `m_uri` is its endpoint and the
relay resolve is started for it; when no candidate is encrypted nothing is
started, no relay is selected (`m_uri` keeps its value) and no stream is made. -/
theorem initiateWebsocketConnection_last_encrypted (self : kc_websocket)
    (htoken : empty self.m_websocketToken = false) :
    (initiateWebsocketConnection self).m_instanceServers =
        self.m_instanceServers.filter (fun d => decide (d.encryptProtocol ≠ 0)) ∧
    (∀ (pre post : List instance_server_data_t) (relay : instance_server_data_t),
        self.m_instanceServers = pre ++ relay :: post →
        relay.encryptProtocol ≠ 0 →
        (∀ d ∈ post, d.encryptProtocol = 0) →
        (initiateWebsocketConnection self).m_instanceServers.getLast? = some relay ∧
        (initiateWebsocketConnection self).m_uri = relay.endpoint ∧
        (initiateWebsocketConnection self).m_ioContext =
          self.m_ioContext ++ [AsyncOp.wsResolve relay.endpoint]) ∧
    ((∀ d ∈ self.m_instanceServers, d.encryptProtocol = 0) →
        (initiateWebsocketConnection self).m_instanceServers = [] ∧
        (initiateWebsocketConnection self).m_ioContext = self.m_ioContext ∧
        (initiateWebsocketConnection self).m_uri = self.m_uri ∧
        (initiateWebsocketConnection self).m_sslWebStream = self.m_sslWebStream) := by
  have hfilter : (fun d : instance_server_data_t => !(d.encryptProtocol == 0)) =
      (fun d => decide (d.encryptProtocol ≠ 0)) := by
    funext d
    by_cases h : d.encryptProtocol = 0 <;> simp [h]
  refine ⟨?_, ?_, ?_⟩
  · unfold initiateWebsocketConnection
    rw [hfilter]
    by_cases hnil : self.m_instanceServers = []
    · simp [hnil]
    · cases hs : self.m_instanceServers with
      | nil => exact absurd hs hnil
      | cons a l =>
        simp only [List.isEmpty_cons, htoken, Bool.or_self, Bool.false_eq_true, ↓reduceIte]
        split <;> simp_all [issue]
  · intro pre post relay hsplit hrelay hpost
    have hkeep := filter_last_encrypted pre post relay hrelay hpost
    have hne : self.m_instanceServers.isEmpty = false := by
      rw [hsplit]; cases pre <;> rfl
    unfold initiateWebsocketConnection
    simp only [hne, htoken, Bool.or_self, Bool.false_eq_true, ↓reduceIte]
    rw [hsplit, hkeep]
    simp [issue]
  · intro hall
    have hnone : self.m_instanceServers.filter (fun d => !(d.encryptProtocol == 0)) = [] := by
      rw [List.filter_eq_nil_iff]
      intro d hd
      simp [hall d hd]
    unfold initiateWebsocketConnection
    by_cases hne : self.m_instanceServers.isEmpty = true
    · have : self.m_instanceServers = [] := List.isEmpty_iff.mp hne
      simp [hne, this]
    · simp [hne, htoken, hnone]

/-- A witness of C1: of plain, relay-1, relay-2, plain the relay used is relay-2. -/
theorem initiateWebsocketConnection_last_encrypted_witness :
    (initiateWebsocketConnection exampleBootstrapped).m_instanceServers.getLast? =
        some { endpoint := "wss://relay-2.example/endpoint", encryptProtocol := 1,
               pingIntervalMs := 18000, pingTimeoutMs := 10000 } ∧
    (initiateWebsocketConnection exampleBootstrapped).m_uri = "wss://relay-2.example/endpoint" ∧
    (initiateWebsocketConnection exampleBootstrapped).m_ioContext =
        [] ++ [AsyncOp.wsResolve "wss://relay-2.example/endpoint"] :=
  (initiateWebsocketConnection_last_encrypted exampleBootstrapped (by decide)).2.1
    (exampleCandidates.take 2) (exampleCandidates.drop 3)
    { endpoint := "wss://relay-2.example/endpoint", encryptProtocol := 1,
      pingIntervalMs := 18000, pingTimeoutMs := 10000 }
    (by decide) (by decide) (by decide)

/-- The watch list after `addSubscription` calls on a non-empty watch list: each
call appends a comma and the symbol. -/
theorem addSubscriptions_of_nonempty (symbols : List String) (self : kc_websocket)
    (h : empty self.m_tokenList = false) :
    (addSubscriptions symbols self).m_tokenList =
      String.intercalate.go self.m_tokenList "," symbols := by
  induction symbols generalizing self with
  | nil => simp [addSubscriptions, String.intercalate.go]
  | cons s rest ih =>
    have hstep : addSubscriptions (s :: rest) self =
        addSubscriptions rest (addSubscription s self) := rfl
    have hnext : (addSubscription s self).m_tokenList = self.m_tokenList ++ "," ++ s := by
      simp [addSubscription, h, String.append_assoc]
    rw [hstep, ih _ (by rw [hnext, String.append_assoc]; exact empty_append_right _ _ h), hnext]
    simp [String.intercalate.go]

/-- The watch list after `addSubscription` calls on an empty watch list: the
empty symbols at the front leave it empty, the rest is joined with commas. -/
theorem addSubscriptions_of_empty (symbols : List String) (self : kc_websocket)
    (h : empty self.m_tokenList = true) :
    (addSubscriptions symbols self).m_tokenList =
      ",".intercalate (symbols.dropWhile fun s => empty s) := by
  induction symbols generalizing self with
  | nil =>
    have := (empty_eq_true_iff _).mp h
    simp [addSubscriptions, String.intercalate, this]
  | cons s rest ih =>
    have hstep : addSubscriptions (s :: rest) self =
        addSubscriptions rest (addSubscription s self) := rfl
    have hnext : (addSubscription s self).m_tokenList = s := by
      simp [addSubscription, h]
    by_cases hs : empty s = true
    · rw [hstep, ih _ (by rw [hnext]; exact hs)]
      simp [List.dropWhile, hs]
    · have hs2 : empty s = false := by simpa using hs
      rw [hstep, addSubscriptions_of_nonempty rest _ (by rw [hnext]; exact hs2), hnext]
      simp [List.dropWhile, hs2, String.intercalate]

/-- The calls of `addSubscription` change the watch list only. -/
theorem addSubscriptions_frame (symbols : List String) (self : kc_websocket) :
    (addSubscriptions symbols self).m_ioContext = self.m_ioContext ∧
    (addSubscriptions symbols self).m_isSpotTrade = self.m_isSpotTrade ∧
    (addSubscriptions symbols self).m_sslWebStream = self.m_sslWebStream ∧
    (addSubscriptions symbols self).m_subscriptionString = self.m_subscriptionString := by
  induction symbols generalizing self with
  | nil => simp [addSubscriptions]
  | cons s rest ih =>
    have hstep : addSubscriptions (s :: rest) self =
        addSubscriptions rest (addSubscription s self) := rfl
    rw [hstep]
    have := ih (addSubscription s self)
    unfold addSubscription at this ⊢
    split <;> simp_all

/-- C4, as the code has it. After successive `addSubscription` calls on a client
whose watch list is empty, the watch list is the comma-join, in call order and
with repetitions kept, of the symbols from the first non-empty one on; so it is
the comma-join of all the symbols when the first symbol is not empty. -/
theorem addSubscription_watch_list (symbols : List String) (self : kc_websocket)
    (h : empty self.m_tokenList = true) :
    (addSubscriptions symbols self).m_tokenList =
        ",".intercalate (symbols.dropWhile fun s => empty s) ∧
    (∀ first rest, symbols = first :: rest → empty first = false →
        (addSubscriptions symbols self).m_tokenList = ",".intercalate symbols) := by
  refine ⟨addSubscriptions_of_empty symbols self h, ?_⟩
  intro first rest hsym hfirst
  rw [addSubscriptions_of_empty symbols self h, hsym]
  simp [List.dropWhile, hfirst]

/-- A witness of C4: `addSubscription("A")` then `addSubscription("B")` on a new
client gives "A,B", and a repeated symbol is kept. -/
theorem addSubscription_watch_list_witness :
    (addSubscriptions ["A", "B"] (kc_websocket.new .spot)).m_tokenList = "A,B" ∧
    (addSubscriptions ["A", "B", "A"] (kc_websocket.new .spot)).m_tokenList = "A,B,A" :=
  ⟨((addSubscription_watch_list ["A", "B"] (kc_websocket.new .spot) (by decide)).2
      "A" ["B"] rfl (by decide)).trans (by decide),
   ((addSubscription_watch_list ["A", "B", "A"] (kc_websocket.new .spot) (by decide)).2
      "A" ["B", "A"] rfl (by decide)).trans (by decide)⟩

/-- The counterexample to C4 as stated: an empty symbol added first leaves no
trace, so `addSubscription("")` then `addSubscription("B")` gives "B", which is
not the comma-join ",B" of the two symbols. -/
theorem addSubscription_watch_list_counterexample :
    (addSubscriptions ["", "B"] (kc_websocket.new .spot)).m_tokenList = "B" ∧
    ",".intercalate ["", "B"] = ",B" ∧
    (addSubscriptions ["", "B"] (kc_websocket.new .spot)).m_tokenList ≠
      ",".intercalate ["", "B"] := by
  decide

/-- A text that contains `pat` has a first occurrence of it, not after the one shown. -/
theorem findIdx_of_occurrence (pat pre post : List Char) :
    ∃ i, findIdx pat (pre ++ pat ++ post) = some i ∧ i ≤ pre.length := by
  induction pre with
  | nil =>
    refine ⟨0, ?_, Nat.le_refl _⟩
    have hp : pat.isPrefixOf (pat ++ post) = true := by
      rw [List.isPrefixOf_iff_prefix]; exact List.prefix_append _ _
    cases hl : pat ++ post with
    | nil => simp [hl] at hp ⊢; simp [findIdx, hp]
    | cons c cs => rw [hl] at hp; simp [findIdx, hl, hp]
  | cons c pre ih =>
    obtain ⟨i, hi, hle⟩ := ih
    by_cases hp : pat.isPrefixOf (c :: (pre ++ pat ++ post)) = true
    · refine ⟨0, ?_, Nat.zero_le _⟩
      show findIdx pat (c :: (pre ++ pat ++ post)) = some 0
      rw [findIdx, if_pos hp]
    · refine ⟨i + 1, ?_, by simpa using hle⟩
      show findIdx pat (c :: (pre ++ pat ++ post)) = some (i + 1)
      rw [findIdx, if_neg hp, hi]
      rfl

/-- An index below `2 ^ 32 - 1` does not become `-1` as an `int`. -/
theorem toInt32_ne_neg_one (i : Nat) (h : i < 2 ^ 32 - 1) : toInt32 i ≠ -1 := by
  unfold toInt32
  have h1 : i % 2 ^ 32 = i := Nat.mod_eq_of_lt (by omega)
  rw [h1]
  split <;> omega

/-- The test `indexOfTopic == -1` fails on a topic that contains the pattern. -/
theorem find_of_occurrence (topic pat : String) (pre post : List Char)
    (hocc : topic.data = pre ++ pat.data ++ post) (hlen : topic.length < 2 ^ 32)
    (hpat : 0 < pat.length) :
    (toInt32 (find topic pat) == -1) = false := by
  obtain ⟨i, hi, hle⟩ := findIdx_of_occurrence pat.data pre post
  have hl : topic.length = pre.length + pat.length + post.length := by
    show topic.data.length = pre.length + pat.data.length + post.length
    rw [hocc, List.length_append, List.length_append]
  have hne := toInt32_ne_neg_one i (by omega)
  rw [← hocc] at hi
  simp only [find, hi]
  simpa using hne

/-- `scale` at an exponent that is not positive is a division. -/
theorem scale_neg (m j : Nat) : scale m 2 (-(j : Int)) = (m : ℚ) / (2 : ℚ) ^ j := by
  unfold scale
  by_cases hj : j = 0
  · subst hj
    simp
  · have hneg : ¬ (0 : Int) ≤ -(j : Int) := by omega
    rw [if_neg hneg]
    simp

/-- Rounding keeps a natural number. -/
theorem roundHalfEven_natCast (m : Nat) : roundHalfEven (m : ℚ) = m := by
  simp [roundHalfEven, Nat.mod_one]

/-- A natural number is a multiple of `2 ^ k` for `k` not positive. -/
theorem roundToGrid_natCast (a j : Nat) : roundToGrid (a : ℚ) (-(j : Int)) = a := by
  unfold roundToGrid
  rw [scale_neg 1 j]
  have h : (a : ℚ) / (((1 : Nat) : ℚ) / (2 : ℚ) ^ j) = ((a * 2 ^ j : Nat) : ℚ) := by
    push_cast
    field_simp
  rw [h, roundHalfEven_natCast, scale_neg]
  push_cast
  field_simp

/-- With enough fuel `log2Fuel` is `Nat.log2`. -/
theorem log2Fuel_eq (fuel n : Nat) (h : n ≤ fuel) : log2Fuel fuel n = Nat.log2 n := by
  induction fuel generalizing n with
  | zero =>
    have hn : n = 0 := by omega
    subst hn
    rw [Nat.log2]
    simp [log2Fuel]
  | succ fuel ih =>
    rw [Nat.log2]
    by_cases h2 : 2 ≤ n
    · simp only [log2Fuel, h2, if_true, ge_iff_le]
      rw [ih (n / 2) (by omega)]
    · simp [log2Fuel, h2]

/-- The function `ilog2` is `Nat.log2`. -/
theorem ilog2_eq (n : Nat) : ilog2 n = Nat.log2 n := log2Fuel_eq n n (Nat.le_refl n)

/-- `floorLog2` of a positive natural number is `Nat.log2`. -/
theorem floorLog2_natCast (a : Nat) (ha : a ≠ 0) : floorLog2 (a : ℚ) = (Nat.log2 a : Int) := by
  unfold floorLog2
  have hle : (2 : ℚ) ^ Nat.log2 a ≤ (a : ℚ) := by
    have := Nat.log2_self_le ha
    exact_mod_cast this
  have h1 : ilog2 1 = 0 := by decide
  simp [scale, hle, h1, ilog2_eq]

/-- A natural number below `2 ^ 53` is a binary64 value. -/
theorem roundBinary64_natCast (a : Nat) (h : a < 2 ^ 53) :
    roundBinary64 (a : ℚ) = a := by
  by_cases ha : a = 0
  · subst ha
    unfold roundBinary64 roundToGrid
    simp [roundHalfEven, scale]
  · have hlog : Nat.log2 a < 53 := (Nat.log2_lt ha).mpr h
    unfold roundBinary64
    rw [floorLog2_natCast a ha]
    have hk : max ((Nat.log2 a : Int) - 52) (-1074) = -((52 - Nat.log2 a : Nat) : Int) := by
      omega
    rw [hk]
    exact roundToGrid_natCast a _

/-- The conversion to `double` keeps an integer below `2 ^ 53` in magnitude. -/
theorem toBinary64_int (n : Int) (h : n.natAbs < 2 ^ 53) : toBinary64 n = .finite n := by
  have hsmall : ¬ ((2 : ℚ) ^ 1024 ≤ ((n.natAbs : Nat) : ℚ)) := by
    have h1 : ((n.natAbs : Nat) : ℚ) < (2 : ℚ) ^ 53 := by exact_mod_cast h
    have h2 : (2 : ℚ) ^ 53 ≤ (2 : ℚ) ^ 1024 := by
      apply pow_le_pow_right₀ <;> norm_num
    intro hc
    linarith
  have hround := roundBinary64_natCast n.natAbs h
  unfold toBinary64
  by_cases hneg : n < 0
  · have hq : (n : ℚ) < 0 := by exact_mod_cast hneg
    have habs : -(n : ℚ) = ((n.natAbs : Nat) : ℚ) := by
      have h2 : (n.natAbs : Int) = -n := by omega
      have h3 : ((n.natAbs : Nat) : ℚ) = ((n.natAbs : Int) : ℚ) := (Int.cast_natCast n.natAbs).symm
      rw [h3, h2]
      push_cast
      rfl
    simp only [hq, if_true, habs, hround, if_neg hsmall]
    rw [← habs]
    simp
  · have hq : ¬ (n : ℚ) < 0 := by
      intro hc
      exact hneg (by exact_mod_cast hc)
    have habs : (n : ℚ) = ((n.natAbs : Nat) : ℚ) := by
      have h2 : (n.natAbs : Int) = n := by omega
      have h3 : ((n.natAbs : Nat) : ℚ) = ((n.natAbs : Int) : ℚ) := (Int.cast_natCast n.natAbs).symm
      rw [h3, h2]
    simp only [hq, if_false]
    rw [habs, hround, if_neg hsmall]

/-- What `stod` gives on some texts: 0.1 becomes the nearest binary64 value, the
least subnormal is kept, and a text without a number, an overflow and an
underflow throw. -/
theorem stod_examples :
    stod "0.1" = .ok (.finite (3602879701896397 / 36028797018963968)) ∧
    stod "0x1p-1074" = .ok (.finite (1 / 2 ^ 1074)) ∧
    stod "abc" = .error .invalid_argument ∧
    stod "1e999" = .error .out_of_range ∧
    stod "1e-400" = .error .out_of_range := by
  decide!

/-- C2, as the code has it. Take a frame that parses to a JSON object whose
`topic` is a string that, read up to its first NUL, contains the mode's fixed
text at some position and is shorter than `2 ^ 32` characters (all rapidjson
strings are), and whose `data` is an object with a `price`. The symbol returned
is the topic without its first 15 (spot) or 23 (futures) characters, wherever
the text matched. Under spot, when `std::stod` converts the price string, the
price returned is the `double` it gives. Under futures the price returned is
the number of the price field converted to `double`: the number itself for an
integer below `2 ^ 53` in magnitude. -/
theorem kuCoinGetCoinPrice_ticker (ndebug isSpot : Bool)
    (members dataMembers : List (String × Json)) (topic : String) (priceValue : Json)
    (pre post : List Char)
    (htopic : FindMember members "topic" = some (.str topic))
    (hocc : (c_str topic).data =
      pre ++ (if isSpot then spot_data_topic else futures_data_topic).data ++ post)
    (hlen : (c_str topic).length < 2 ^ 32)
    (hdata : FindMember members "data" = some (.obj dataMembers))
    (hprice : FindMember dataMembers "price" = some priceValue) :
    (∀ text price, isSpot = true → priceValue = .str text → stod (c_str text) = .ok price →
        kuCoinGetCoinPrice ndebug (.obj members) isSpot =
          .ok (some (⟨(c_str topic).data.drop 15⟩, price))) ∧
    (∀ n, isSpot = false → priceValue = .int n →
        kuCoinGetCoinPrice ndebug (.obj members) isSpot =
          .ok (some (⟨(c_str topic).data.drop 23⟩, toBinary64 n)) ∧
        (n.natAbs < 2 ^ 53 →
          kuCoinGetCoinPrice ndebug (.obj members) isSpot =
            .ok (some (⟨(c_str topic).data.drop 23⟩, .finite n)))) ∧
    (∀ q, isSpot = false → priceValue = .real q →
        kuCoinGetCoinPrice ndebug (.obj members) isSpot =
          .ok (some (⟨(c_str topic).data.drop 23⟩, toBinary64 q))) := by
  have hfound := find_of_occurrence (c_str topic)
    (if isSpot then spot_data_topic else futures_data_topic) pre post hocc hlen
    (by cases isSpot <;> decide)
  have hl : (c_str topic).length =
      pre.length + (if isSpot then spot_data_topic else futures_data_topic).length
        + post.length := by
    show (c_str topic).data.length = pre.length +
      (if isSpot then spot_data_topic else futures_data_topic).data.length + post.length
    rw [hocc, List.length_append, List.length_append]
  have hspot : toSizeT (toInt32 spot_data_topic_len) = 15 := by decide
  have hfut : toSizeT (toInt32 futures_data_topic_len) = 23 := by decide
  have hslen : spot_data_topic.length = 15 := by decide
  have hflen : futures_data_topic.length = 23 := by decide
  refine ⟨?_, ?_, ?_⟩
  · intro text price hs hp hstod
    subst hs hp
    simp only [if_true] at hfound hl
    have hsub : substr (c_str topic) 15 = .ok ⟨(c_str topic).data.drop 15⟩ := by
      unfold substr; rw [if_neg (by omega)]
    simp [kuCoinGetCoinPrice, Json.GetObject, htopic, Json.IsString, Json.GetString,
      Except.bind, hfound, hdata, hprice, Json.GetType, hspot, hsub, hstod]
  · intro n hs hp
    subst hs hp
    simp only [Bool.false_eq_true, if_false] at hfound hl
    have hsub : substr (c_str topic) 23 = .ok ⟨(c_str topic).data.drop 23⟩ := by
      unfold substr; rw [if_neg (by omega)]
    have hresult : kuCoinGetCoinPrice ndebug (.obj members) false =
        .ok (some (⟨(c_str topic).data.drop 23⟩, toBinary64 n)) := by
      simp [kuCoinGetCoinPrice, Json.GetObject, htopic, Json.IsString, Json.GetString,
        Except.bind, hfound, hdata, hprice, Json.GetType, hfut, hsub, Json.GetDouble]
    refine ⟨hresult, ?_⟩
    intro hn
    rw [hresult, toBinary64_int n hn]
  · intro q hs hp
    subst hs hp
    simp only [Bool.false_eq_true, if_false] at hfound hl
    have hsub : substr (c_str topic) 23 = .ok ⟨(c_str topic).data.drop 23⟩ := by
      unfold substr; rw [if_neg (by omega)]
    simp [kuCoinGetCoinPrice, Json.GetObject, htopic, Json.IsString, Json.GetString,
      Except.bind, hfound, hdata, hprice, Json.GetType, hfut, hsub, Json.GetDouble]

/-- A witness of C2: the two frames of the specification, and a topic in which
the fixed text starts at position 1, whose symbol still loses 15 characters. -/
theorem kuCoinGetCoinPrice_ticker_witness :
    kuCoinGetCoinPrice false (.obj spotTickerFrame) true =
        .ok (some ("BTC-USDT", .finite 50000.5)) ∧
    kuCoinGetCoinPrice false (.obj futuresTickerFrame) false =
        .ok (some ("XBTUSDTM", .finite 50000)) ∧
    kuCoinGetCoinPrice false (.obj shiftedTopicFrame) true =
        .ok (some (":BTC-USDT", .finite 1)) :=
  ⟨(kuCoinGetCoinPrice_ticker false true spotTickerFrame [("price", .str "50000.5")]
      "/market/ticker:BTC-USDT" (.str "50000.5") [] "BTC-USDT".data
      rfl (by decide) (by decide) rfl rfl).1 "50000.5" (.finite 50000.5) rfl rfl (by decide!),
   ((kuCoinGetCoinPrice_ticker false false futuresTickerFrame [("price", .int 50000)]
      "/contractMarket/ticker:XBTUSDTM" (.int 50000) [] "XBTUSDTM".data
      rfl (by decide) (by decide) rfl rfl).2.1 50000 rfl rfl).2 (by decide),
   (kuCoinGetCoinPrice_ticker false true shiftedTopicFrame [("price", .str "1")]
      "x/market/ticker:BTC-USDT" (.str "1") ['x'] "BTC-USDT".data
      rfl (by decide) (by decide) rfl rfl).1 "1" (.finite 1) rfl rfl (by decide!)⟩

/-- The counterexample to C2 as stated. Under spot, a frame whose topic holds
the fixed text and whose price is the string "abc" makes `std::stod` throw
`std::invalid_argument`: no pair is returned. And a topic that holds the fixed
text after an escaped NUL is read as the empty C string: no result. -/
theorem kuCoinGetCoinPrice_ticker_counterexample :
    (FindMember nonNumericPriceFrame "topic" = some (.str "/market/ticker:BTC-USDT") ∧
     FindMember nonNumericPriceFrame "data" = some (.obj [("price", .str "abc")]) ∧
     (Json.str "abc").GetType = rapidjson.ValueType.kStringType ∧
     kuCoinGetCoinPrice false (.obj nonNumericPriceFrame) true = .error .invalid_argument ∧
     kuCoinGetCoinPrice true (.obj nonNumericPriceFrame) true = .error .invalid_argument) ∧
    (FindMember nulTopicFrame "topic" = some (.str "\x00/market/ticker:BTC-USDT") ∧
     "\x00/market/ticker:BTC-USDT".data = [Char.ofNat 0] ++ spot_data_topic.data ++ "BTC-USDT".data ∧
     kuCoinGetCoinPrice false (.obj nulTopicFrame) true = .ok none ∧
     kuCoinGetCoinPrice true (.obj nulTopicFrame) true = .ok none) := by
  refine ⟨⟨rfl, rfl, rfl, ?_, ?_⟩, ⟨rfl, ?_, ?_, ?_⟩⟩ <;> decide

/-- C3, as the code has it. Take a frame that parses to a JSON object, in either
mode. Without a `topic`, with a `topic` that is not a string, or without a
`data`, the call returns no result in every build. With a `data` object whose
`price` is missing or not of the mode's JSON type, the call returns no result
when `NDEBUG` is defined; and when it is not, and the topic (up to its first
NUL, shorter than `2 ^ 32`) contains the mode's fixed text, the `assert(false)`
of that branch fails. -/
theorem kuCoinGetCoinPrice_no_result (ndebug isSpot : Bool) (members : List (String × Json)) :
    (FindMember members "topic" = none →
        kuCoinGetCoinPrice ndebug (.obj members) isSpot = .ok none) ∧
    (∀ v, FindMember members "topic" = some v → v.IsString = false →
        kuCoinGetCoinPrice ndebug (.obj members) isSpot = .ok none) ∧
    (FindMember members "data" = none →
        kuCoinGetCoinPrice ndebug (.obj members) isSpot = .ok none) ∧
    (∀ dataMembers, FindMember members "data" = some (.obj dataMembers) →
        (FindMember dataMembers "price" = none ∨
         ∃ v, FindMember dataMembers "price" = some v ∧
           v.GetType ≠ (if isSpot then rapidjson.ValueType.kStringType
                        else rapidjson.ValueType.kNumberType)) →
        kuCoinGetCoinPrice true (.obj members) isSpot = .ok none ∧
        (∀ topic pre post, FindMember members "topic" = some (.str topic) →
            (c_str topic).data =
              pre ++ (if isSpot then spot_data_topic else futures_data_topic).data ++ post →
            (c_str topic).length < 2 ^ 32 →
            kuCoinGetCoinPrice false (.obj members) isSpot = .error .assertion)) := by
  refine ⟨?_, ?_, ?_, ?_⟩
  · intro h
    simp [kuCoinGetCoinPrice, Json.GetObject, Except.bind, h]
  · intro v h hv
    simp [kuCoinGetCoinPrice, Json.GetObject, Except.bind, h, hv]
  · intro h
    unfold kuCoinGetCoinPrice
    simp only [Json.GetObject, Except.bind, h]
    cases FindMember members "topic" with
    | none => rfl
    | some v =>
      cases v <;> simp [Json.IsString, Json.GetString]
  · intro dataMembers hdata hprice
    constructor
    · unfold kuCoinGetCoinPrice
      simp only [Json.GetObject, Except.bind, hdata]
      cases FindMember members "topic" with
      | none => rfl
      | some v =>
        cases v <;> simp [Json.IsString, Json.GetString]
        rcases hprice with h | ⟨v, h, hv⟩
        · simp [h, cassert]
        · simp [h, hv, cassert]
    · intro topic pre post htopic hocc hlen
      have hfound := find_of_occurrence (c_str topic)
        (if isSpot then spot_data_topic else futures_data_topic) pre post hocc hlen
        (by cases isSpot <;> decide)
      rcases hprice with h | ⟨v, h, hv⟩
      · simp [kuCoinGetCoinPrice, Json.GetObject, htopic, Json.IsString, Json.GetString,
          Except.bind, hfound, hdata, h, cassert]
      · simp [kuCoinGetCoinPrice, Json.GetObject, htopic, Json.IsString, Json.GetString,
          Except.bind, hfound, hdata, h, hv, cassert]

/-- A witness of C3: the acknowledgement frame, which has no `topic`, gives no
result in both modes and both builds; the frame without a price gives no
result when `NDEBUG` is defined. -/
theorem kuCoinGetCoinPrice_no_result_witness :
    (kuCoinGetCoinPrice false (.obj welcomeFrame) true = .ok none ∧
     kuCoinGetCoinPrice true (.obj welcomeFrame) false = .ok none) ∧
    kuCoinGetCoinPrice true (.obj noPriceFrame) true = .ok none :=
  ⟨⟨(kuCoinGetCoinPrice_no_result false true welcomeFrame).1 rfl,
    (kuCoinGetCoinPrice_no_result true false welcomeFrame).1 rfl⟩,
   ((kuCoinGetCoinPrice_no_result true true noPriceFrame).2.2.2 [] rfl (Or.inl rfl)).1⟩

/-- The counterexample to C3 as stated. In a build without `NDEBUG` the frame
`{"topic":"/market/ticker:BTC-USDT","data":{}}`, which has no `data.price`,
fails the `assert(false)` of the function; and a frame that is not a JSON
object (here the document of a text that is not JSON, and an empty array),
which has no `topic`, fails the assertion of `GetObject`, the same call being
undefined when `NDEBUG` is defined. -/
theorem kuCoinGetCoinPrice_no_result_counterexample :
    (FindMember noPriceFrame "data" = some (.obj []) ∧
     FindMember [] "price" = none ∧
     kuCoinGetCoinPrice false (.obj noPriceFrame) true = .error .assertion) ∧
    (kuCoinGetCoinPrice false .null true = .error .assertion ∧
     kuCoinGetCoinPrice false (.arr []) false = .error .assertion ∧
     kuCoinGetCoinPrice true .null true = .error .undefinedBehaviour) := by
  refine ⟨⟨rfl, rfl, ?_⟩, ⟨?_, ?_, ?_⟩⟩ <;> decide

/-- A run of plain characters up to a quote reads as itself. -/
theorem readStringBody_plain (body rest : List Char) (h : ∀ c ∈ body, plainChar c = true) :
    readStringBody (body ++ '"' :: rest) = some (body, rest) := by
  induction body with
  | nil => rw [List.nil_append, readStringBody.eq_def]; simp
  | cons c cs ih =>
    have hc := h c (List.mem_cons_self _ _)
    have hcs := ih fun d hd => h d (List.mem_cons_of_mem _ hd)
    simp only [plainChar, Bool.and_eq_true, bne_iff_ne, ne_eq, decide_eq_true_eq] at hc
    obtain ⟨⟨hq, hb⟩, hctl⟩ := hc
    have hq2 : (c == '"') = false := by simpa using hq
    have hb2 : (c == '\\') = false := by simpa using hb
    have hctl2 : ¬ c.toNat < 32 := by omega
    rw [List.cons_append, readStringBody.eq_def]
    simp only [hq2, hb2, hctl2, hcs, Bool.false_eq_true, if_false]

/-- An identifier from 1 to 100, written by `std::to_string` after a space and
before a comma, reads as itself. -/
theorem readValue_id (id : Nat) (h1 : 1 ≤ id) (h100 : id ≤ 100) (fuel : Nat) (rest : List Char) :
    readValue (fuel + 1) .value (' ' :: ((toString id).data ++ ',' :: rest)) =
      some (.int id, ',' :: rest) := by
  interval_cases id <;> rfl

/-- The reading of the text of `subscriptionText`, for any digits `D` that read
as the identifier and any string body `B` that reads as itself. -/
theorem readValue_template (D B : List Char) (id : Nat) (k : Nat)
    (hD : ∀ fuel rest, readValue (fuel + 1) .value (' ' :: (D ++ ',' :: rest)) =
      some (.int id, ',' :: rest))
    (hB : ∀ rest, readStringBody (B ++ '"' :: rest) = some (B, rest)) :
    readValue (k + 6) .value
      ("\x7b\n          \"id\":".data ++ ' ' :: (D ++ ',' ::
        ("\n          \"type\": \"subscribe\",\n          \"topic\": ".data ++ '"' :: (B ++ '"' ::
          ",\n          \"response\": false\n        \x7d".data)))) =
      some (.obj [("id", .int id), ("type", .str "subscribe"), ("topic", .str ⟨B⟩),
                  ("response", .bool false)], []) := by
  have hk1 : ∀ rest, readStringBody ('i' :: 'd' :: '"' :: rest) = some (['i', 'd'], rest) :=
    fun rest => readStringBody_plain ['i', 'd'] rest (by decide)
  have hk2 : ∀ rest, readStringBody ('t' :: 'y' :: 'p' :: 'e' :: '"' :: rest) =
      some (['t', 'y', 'p', 'e'], rest) :=
    fun rest => readStringBody_plain ['t', 'y', 'p', 'e'] rest (by decide)
  have hk3 : ∀ rest, readStringBody
      ('s' :: 'u' :: 'b' :: 's' :: 'c' :: 'r' :: 'i' :: 'b' :: 'e' :: '"' :: rest) =
      some (['s', 'u', 'b', 's', 'c', 'r', 'i', 'b', 'e'], rest) :=
    fun rest => readStringBody_plain ['s', 'u', 'b', 's', 'c', 'r', 'i', 'b', 'e'] rest
      (by decide)
  have hk4 : ∀ rest, readStringBody ('t' :: 'o' :: 'p' :: 'i' :: 'c' :: '"' :: rest) =
      some (['t', 'o', 'p', 'i', 'c'], rest) :=
    fun rest => readStringBody_plain ['t', 'o', 'p', 'i', 'c'] rest (by decide)
  have hk5 : ∀ rest, readStringBody
      ('r' :: 'e' :: 's' :: 'p' :: 'o' :: 'n' :: 's' :: 'e' :: '"' :: rest) =
      some (['r', 'e', 's', 'p', 'o', 'n', 's', 'e'], rest) :=
    fun rest => readStringBody_plain ['r', 'e', 's', 'p', 'o', 'n', 's', 'e'] rest (by decide)
  rw [readValue]
  simp [dropSpaces, jsonSpace, List.dropWhile]
  iterate 7
    rw [readValue]
    simp [dropSpaces, jsonSpace, List.dropWhile, hk1, hk2, hk3, hk4, hk5, hD, hB]

/-- The text `subscriptionText` composes reads as the object `subscribeObject`,
for an identifier from 1 to 100 and a watch list of plain characters. -/
theorem readJson_subscriptionText (isSpot : Bool) (id : Nat) (h1 : 1 ≤ id) (h100 : id ≤ 100)
    (tokenList : String) (hplain : ∀ c ∈ tokenList.data, plainChar c = true) :
    readJson (subscriptionText isSpot id tokenList) =
      some (subscribeObject isSpot id tokenList) := by
  have hbody : ∀ c ∈ ((if isSpot then spot_data_topic else futures_data_topic) ++ tokenList).data,
      plainChar c = true := by
    intro c hc
    rw [String.data_append, List.mem_append] at hc
    rcases hc with hc | hc
    · revert c
      cases isSpot <;> decide
    · exact hplain c hc
  have hread := fun k => readValue_template (toString id).data
    ((if isSpot then spot_data_topic else futures_data_topic) ++ tokenList).data id k
    (readValue_id id h1 h100) (fun rest => readStringBody_plain _ rest hbody)
  have htext : (subscriptionText isSpot id tokenList).data =
      "\x7b\n          \"id\":".data ++ ' ' :: ((toString id).data ++ ',' ::
        ("\n          \"type\": \"subscribe\",\n          \"topic\": ".data ++ '"' ::
          (((if isSpot then spot_data_topic else futures_data_topic) ++ tokenList).data ++ '"' ::
            ",\n          \"response\": false\n        \x7d".data))) := by
    cases isSpot <;>
      simp [subscriptionText, String.data_append, spot_data_topic, futures_data_topic]
  have hlen : ∃ k, (subscriptionText isSpot id tokenList).length + 1 = k + 6 := by
    refine ⟨(subscriptionText isSpot id tokenList).length - 5, ?_⟩
    have : 6 ≤ (subscriptionText isSpot id tokenList).data.length := by
      rw [htext]; simp
    have h2 : (subscriptionText isSpot id tokenList).length =
      (subscriptionText isSpot id tokenList).data.length := rfl
    omega
  obtain ⟨k, hk⟩ := hlen
  unfold readJson
  rw [hk, htext, hread k]
  simp [dropSpaces, subscribeObject]
  exact String.ext (by simp)

/-- The watch list built from plain symbols is made of plain characters. -/
theorem addSubscriptions_plain (symbols : List String) (self : kc_websocket)
    (hself : ∀ c ∈ self.m_tokenList.data, plainChar c = true)
    (hplain : ∀ s ∈ symbols, ∀ c ∈ s.data, plainChar c = true) :
    ∀ c ∈ (addSubscriptions symbols self).m_tokenList.data, plainChar c = true := by
  induction symbols generalizing self with
  | nil => simpa [addSubscriptions] using hself
  | cons s rest ih =>
    have hstep : addSubscriptions (s :: rest) self =
        addSubscriptions rest (addSubscription s self) := rfl
    rw [hstep]
    apply ih
    · intro c hc
      have hs := hplain s (List.mem_cons_self _ _)
      unfold addSubscription at hc
      split at hc
      · exact hs c hc
      · simp only [String.data_append, List.mem_append] at hc
        rcases hc with hc | hc | hc
        · exact hself c hc
        · have : c = ',' := by simpa using hc
          subst this
          decide
        · exact hs c hc
    · intro t ht
      exact hplain t (List.mem_cons_of_mem _ ht)

/-- The identifier `get_random_integer` returns lies from 1 to 100. -/
theorem get_random_integer_range (raw : Nat) :
    1 ≤ get_random_integer raw ∧ get_random_integer raw ≤ 100 := by
  unfold get_random_integer uniform_int_distribution
  omega

/-- C5, as the code has it. For either mode, after `addSubscription` calls with
symbols made of plain characters (no quote, no backslash, no control character)
on a client with an empty watch list, the first `makeSubscription` writes a text
that reads as the JSON object with, in this order, `id` the integer
`get_random_integer` returned, which lies from 1 to 100, `type` "subscribe",
`topic` the mode's fixed text immediately followed by the watch list, and
`response` false; the watch list being the comma-join of the symbols from the
first non-empty one on. -/
theorem makeSubscription_first_message (symbols : List String) (raw : Nat)
    (self : kc_websocket)
    (hlist : empty self.m_tokenList = true)
    (hfirst : empty self.m_subscriptionString = true)
    (hstream : self.m_sslWebStream = true)
    (hplain : ∀ s ∈ symbols, ∀ c ∈ s.data, plainChar c = true) :
    ∃ next, makeSubscription raw (addSubscriptions symbols self) = .ok next ∧
      next.m_ioContext = self.m_ioContext ++ [AsyncOp.wsWrite next.m_subscriptionString] ∧
      (1 ≤ get_random_integer raw ∧ get_random_integer raw ≤ 100) ∧
      readJson next.m_subscriptionString =
        some (subscribeObject self.m_isSpotTrade (get_random_integer raw)
          (addSubscriptions symbols self).m_tokenList) ∧
      (addSubscriptions symbols self).m_tokenList =
        ",".intercalate (symbols.dropWhile fun s => empty s) := by
  obtain ⟨hio, hspot, hssl, hsub⟩ := addSubscriptions_frame symbols self
  have hrange := get_random_integer_range raw
  have hchars := addSubscriptions_plain symbols self
    (by rw [(empty_eq_true_iff _).mp hlist]; intro c hc; simp at hc) hplain
  have hcompose : composeSubscription raw (addSubscriptions symbols self) =
      { addSubscriptions symbols self with
        m_subscriptionString := subscriptionText self.m_isSpotTrade (get_random_integer raw)
          (addSubscriptions symbols self).m_tokenList
        m_tokenList := "" } := by
    simp [composeSubscription, hsub, hfirst, hspot]
  refine ⟨issue (.wsWrite (subscriptionText self.m_isSpotTrade (get_random_integer raw)
      (addSubscriptions symbols self).m_tokenList))
    (composeSubscription raw (addSubscriptions symbols self)), ?_, ?_, hrange, ?_, ?_⟩
  · simp [makeSubscription, requireStream, hcompose, hssl, hstream, Except.bind]
  · simp [issue, hcompose, hio]
  · simp only [issue, hcompose]
    exact readJson_subscriptionText _ _ hrange.1 hrange.2 _ hchars
  · exact addSubscriptions_of_empty symbols self hlist

/-- A witness of C5: spot with BTC-USDT and RUNE-USDT gives the topic
"/market/ticker:BTC-USDT,RUNE-USDT", here with the identifier 42. -/
theorem makeSubscription_first_message_witness :
    ∃ next, makeSubscription 41
        (addSubscriptions ["BTC-USDT", "RUNE-USDT"] (exampleConnected .spot)) = .ok next ∧
      next.m_ioContext = [] ++ [AsyncOp.wsWrite next.m_subscriptionString] ∧
      (1 ≤ 42 ∧ 42 ≤ 100) ∧
      readJson next.m_subscriptionString =
        some (.obj [("id", .int 42), ("type", .str "subscribe"),
                    ("topic", .str "/market/ticker:BTC-USDT,RUNE-USDT"),
                    ("response", .bool false)]) ∧
      "BTC-USDT,RUNE-USDT" = ",".intercalate ["BTC-USDT", "RUNE-USDT"] :=
  makeSubscription_first_message ["BTC-USDT", "RUNE-USDT"] 41 (exampleConnected .spot)
    (by decide) (by decide) (by decide) (by decide)

set_option maxRecDepth 100000 in
/-- The counterexample to C5 as stated. The watch list is copied into the text
as it is: with the symbol `"` the first message is not a JSON text, and with
the symbol `A\nB` (a backslash, then `n`) its topic reads as `A`, a line feed
and `B`, which is not the watch list. -/
theorem makeSubscription_first_message_counterexample :
    (firstSubscribeMessage .spot ["\""] 41 = some (subscriptionText true 42 "\"") ∧
     (readJson (subscriptionText true 42 "\"")).isSome = false) ∧
    (firstSubscribeMessage .spot ["A\\nB"] 41 = some (subscriptionText true 42 "A\\nB") ∧
     (readJson (subscriptionText true 42 "A\\nB")).bind (stringMember "topic") =
       some "/market/ticker:A\nB" ∧
     "/market/ticker:A\nB" ≠ spot_data_topic ++ "A\\nB") := by
  decide

/-- C6, as the code has it. Of the failure exits of the stream session only the
failed frame read re-enters `restApiInitiateConnection`: when shutdown has not
been requested, a read that fails with an error other than the cancellation
drops the stream, clears the token and the subscribed flag and starts the REST
resolve. A cancelled read, and a failed relay resolve, connect, TLS handshake,
upgrade handshake or subscribe write end in their handler: the operation is no
longer outstanding, nothing else changes and nothing is started. -/
theorem stream_failure_exits (ndebug : Bool) (self : kc_websocket) (input : Input) :
    (self.m_requestedToStop = false →
      ∃ next, step ndebug self (.complete .wsRead .failure input) = .ok next ∧
        next.m_ioContext = self.m_ioContext.erase .wsRead ++
          [AsyncOp.restResolve
            (if self.m_isSpotTrade then kucoin_spot_api_url else kucoin_futures_api_url)] ∧
        next.m_sslWebStream = false ∧ next.m_websocketToken = "" ∧
        next.m_tokensSubscribedFor = false) ∧
    step ndebug self (.complete .wsRead .operation_aborted input) =
      .ok { self with m_ioContext := self.m_ioContext.erase .wsRead } ∧
    (∀ ec, ec ≠ error_code.success → ∀ endpoint token connectId text,
      step ndebug self (.complete (.wsResolve endpoint) ec input) =
        .ok { self with m_ioContext := self.m_ioContext.erase (.wsResolve endpoint) } ∧
      step ndebug self (.complete .wsConnect ec input) =
        .ok { self with m_ioContext := self.m_ioContext.erase .wsConnect } ∧
      step ndebug self (.complete .wsTlsHandshake ec input) =
        .ok { self with m_ioContext := self.m_ioContext.erase .wsTlsHandshake } ∧
      step ndebug self (.complete (.wsHandshake token connectId) ec input) =
        .ok { self with
              m_ioContext := self.m_ioContext.erase (.wsHandshake token connectId) } ∧
      step ndebug self (.complete (.wsWrite text) ec input) =
        .ok { self with m_ioContext := self.m_ioContext.erase (.wsWrite text) }) := by
  refine ⟨?_, ?_, ?_⟩
  · intro hstop
    refine ⟨_, rfl, ?_⟩
    simp [restApiInitiateConnection, hstop, issue]
  · rfl
  · intro ec hec endpoint token connectId text
    have h : (ec != error_code.success) = true := by simpa using hec
    simp [step, handler, h]

set_option maxRecDepth 100000 in
/-- A witness of C6: in the streaming state of the example run, a failed read
starts the REST resolve, and a failed subscribe write would start nothing. -/
theorem stream_failure_exits_witness :
    (∃ next, step false streamingState (.complete .wsRead .failure (exampleInput .null)) =
        .ok next ∧
      next.m_ioContext = streamingState.m_ioContext.erase .wsRead ++
        [AsyncOp.restResolve
          (if streamingState.m_isSpotTrade then kucoin_spot_api_url
           else kucoin_futures_api_url)] ∧
      next.m_sslWebStream = false ∧ next.m_websocketToken = "" ∧
      next.m_tokensSubscribedFor = false) ∧
    step false streamingState (.complete (.wsWrite "") .failure (exampleInput .null)) =
      .ok { streamingState with m_ioContext := streamingState.m_ioContext.erase (.wsWrite "") } :=
  ⟨(stream_failure_exits false streamingState (exampleInput .null)).1 (by decide),
   ((stream_failure_exits false streamingState (exampleInput .null)).2.2
      .failure (by decide) "" "" "" "").2.2.2.2⟩

set_option maxRecDepth 100000 in
/-- The counterexample to C6 as stated. With shutdown not requested, a failed
relay resolve after a successful bootstrap, and a failed subscribe write after
the first frame, leave the client with no operation outstanding: the bootstrap
is not entered again. -/
theorem stream_failure_exits_counterexample :
    observe (run false (kc_websocket.new .futures) bootstrapRun) =
      some ([.wsResolve "wss://relay.example/endpoint"], true, false, .ResolvingWs) ∧
    observe (run false (kc_websocket.new .futures) (bootstrapRun ++
        [.complete (.wsResolve "wss://relay.example/endpoint") .failure (exampleInput .null)])) =
      some ([], true, false, .Idle) ∧
    observe (run false (kc_websocket.new .futures) (bootstrapRun ++ sessionEvents.take 5 ++
        [.complete (.wsWrite (subscriptionText false 42 "XBTUSDTM,ETHUSDTM")) .failure
          (exampleInput .null)])) =
      some ([], true, false, .Idle) := by
  decide

/-- What `connectionState` being `Streaming` says of the members. -/
theorem streaming_state (self : kc_websocket) (h : connectionState self = .Streaming) :
    self.m_ioContext.getLast? = some .wsRead ∧ self.m_sslWebStream = true ∧
    self.m_tokensSubscribedFor = true := by
  unfold connectionState restingState at h
  split at h <;> first
    | exact absurd h (by decide)
    | (split_ifs at h <;> simp_all)

/-- C7, as the code has it. In a state that is `Streaming` a close control frame
can arrive and drops the stream. When shutdown has not been requested,
`restApiInitiateConnection` clears the token and the subscribed flag and starts
the REST resolve: the client is `ResolvingRest`. When shutdown has been
requested, `restApiInitiateConnection` returns at once: nothing is started and
the client is `Stopped`. -/
theorem close_frame_while_streaming (ndebug : Bool) (self : kc_websocket)
    (hstreaming : connectionState self = .Streaming) :
    enabled self (.control .close) = true ∧
    (self.m_requestedToStop = false →
      ∃ next, step ndebug self (.control .close) = .ok next ∧
        next.m_sslWebStream = false ∧ next.m_websocketToken = "" ∧
        next.m_tokensSubscribedFor = false ∧
        next.m_ioContext = self.m_ioContext ++
          [AsyncOp.restResolve
            (if self.m_isSpotTrade then kucoin_spot_api_url else kucoin_futures_api_url)] ∧
        connectionState next = .ResolvingRest) ∧
    (self.m_requestedToStop = true →
      ∃ next, step ndebug self (.control .close) = .ok next ∧
        next.m_sslWebStream = false ∧ next.m_ioContext = self.m_ioContext ∧
        connectionState next = .Stopped) := by
  obtain ⟨hlast, hstream, hsub⟩ := streaming_state self hstreaming
  have hmem : AsyncOp.wsRead ∈ self.m_ioContext := List.mem_of_mem_getLast? hlast
  refine ⟨by simp [enabled, hmem], ?_, ?_⟩
  · intro hstop
    refine ⟨_, rfl, ?_⟩
    simp [control_callback, restApiInitiateConnection, hstop, issue, connectionState]
  · intro hstop
    refine ⟨_, rfl, ?_⟩
    simp [control_callback, restApiInitiateConnection, hstop, connectionState, hlast,
      restingState]

set_option maxRecDepth 100000 in
/-- A witness of C7: the streaming state of the example run, where shutdown has
not been requested, becomes `ResolvingRest` on a close frame. -/
theorem close_frame_while_streaming_witness :
    ∃ next, step false streamingState (.control .close) = .ok next ∧
      next.m_sslWebStream = false ∧ next.m_websocketToken = "" ∧
      next.m_tokensSubscribedFor = false ∧
      next.m_ioContext = streamingState.m_ioContext ++
        [AsyncOp.restResolve
          (if streamingState.m_isSpotTrade then kucoin_spot_api_url
           else kucoin_futures_api_url)] ∧
      connectionState next = .ResolvingRest :=
  (close_frame_while_streaming false streamingState (by decide)).2.1 (by decide)

set_option maxRecDepth 100000 in
/-- The counterexample to C7 as stated. The run of `main` up to streaming, then
the request to shut down: the read is outstanding on the stream with the
subscription confirmed, so the client is `Streaming`. The close frame that
arrives then drops the stream and starts nothing: the client is `Stopped`, not
`ResolvingRest`. -/
theorem close_frame_while_streaming_counterexample :
    observe (run false (kc_websocket.new .futures) (streamingRun ++ [.requestStop])) =
      some ([.wsRead], true, true, .Streaming) ∧
    observe (run false (kc_websocket.new .futures)
        (streamingRun ++ [.requestStop, .control .close])) =
      some ([.wsRead], false, true, .Stopped) := by
  decide

/-- C8, as the code has it. Once `m_requestedToStop` is set, the two places that
consult it start nothing: `restApiInitiateConnection` (entered from
`startFetching`, from the close control frame and from the failed read) returns
at once, and so does `interpretGenericMessages` (entered from the successful
read), so the completion of the read, whatever its error code, and the close
frame leave no new operation outstanding. The handlers of the other stages do
not consult the flag: on success the REST resolve, connect, TLS handshake and
request write, the relay resolve, connect, TLS handshake and upgrade handshake,
and the subscribe write each start the next operation. -/
theorem stop_flag_gates (ndebug : Bool) (self : kc_websocket) (input : Input)
    (hstop : self.m_requestedToStop = true) :
    (restApiInitiateConnection self = self ∧
     step ndebug self .startFetching = .ok self ∧
     (∃ next, step ndebug self (.control .close) = .ok next ∧
        next.m_ioContext = self.m_ioContext) ∧
     (∀ ec, (ec = error_code.success → self.m_readWriteBuffer.isSome = true) →
        ∃ next, step ndebug self (.complete .wsRead ec input) = .ok next ∧
          next.m_ioContext = self.m_ioContext.erase .wsRead)) ∧
    (∀ url endpoint,
      (∃ next, step ndebug self (.complete (.restResolve url) .success input) = .ok next ∧
        next.m_ioContext = self.m_ioContext.erase (.restResolve url) ++ [AsyncOp.restConnect]) ∧
      (∃ next, step ndebug self (.complete (.wsResolve endpoint) .success input) = .ok next ∧
        next.m_ioContext = self.m_ioContext.erase (.wsResolve endpoint) ++ [AsyncOp.wsConnect])) ∧
    (self.m_sslWebStream = true → ∀ request token connectId text,
      (input.sniOk = true →
        (∃ next, step ndebug self (.complete .restConnect .success input) = .ok next ∧
          next.m_ioContext = self.m_ioContext.erase .restConnect ++ [AsyncOp.restTlsHandshake]) ∧
        (∃ next, step ndebug self (.complete .wsConnect .success input) = .ok next ∧
          next.m_ioContext = self.m_ioContext.erase .wsConnect ++ [AsyncOp.wsTlsHandshake])) ∧
      (∃ next, step ndebug self (.complete .restTlsHandshake .success input) = .ok next ∧
        next.m_ioContext = self.m_ioContext.erase .restTlsHandshake ++
          [AsyncOp.restWrite (if self.m_isSpotTrade then kucoin_spot_http_request
                              else kucoin_futures_http_request)]) ∧
      (∃ next, step ndebug self (.complete (.restWrite request) .success input) = .ok next ∧
        next.m_ioContext = self.m_ioContext.erase (.restWrite request) ++ [AsyncOp.restRead]) ∧
      (self.m_instanceServers ≠ [] →
        ∃ next, step ndebug self (.complete .wsTlsHandshake .success input) = .ok next ∧
          next.m_ioContext = self.m_ioContext.erase .wsTlsHandshake ++
            [AsyncOp.wsHandshake self.m_websocketToken (get_random_string 10 input.gen)]) ∧
      (∃ next, step ndebug self (.complete (.wsHandshake token connectId) .success input) =
          .ok next ∧
        next.m_ioContext = self.m_ioContext.erase (.wsHandshake token connectId) ++
          [AsyncOp.wsRead]) ∧
      (∃ next, step ndebug self (.complete (.wsWrite text) .success input) = .ok next ∧
        next.m_ioContext = self.m_ioContext.erase (.wsWrite text) ++ [AsyncOp.wsRead])) := by
  have hinit : ∀ client : kc_websocket, client.m_requestedToStop = true →
      restApiInitiateConnection client = client := by
    intro client h
    simp [restApiInitiateConnection, h]
  refine ⟨⟨hinit self hstop, ?_, ?_, ?_⟩, ?_, ?_⟩
  · simp [step, startFetching, hinit self hstop]
  · refine ⟨_, rfl, ?_⟩
    simp [control_callback, restApiInitiateConnection, hstop]
  · intro ec hbuffer
    cases ec with
    | success =>
      have hb := hbuffer rfl
      refine ⟨{ self with m_ioContext := self.m_ioContext.erase .wsRead,
                          m_readWriteBuffer := some input.document }, ?_, rfl⟩
      have hb2 : self.m_readWriteBuffer ≠ none := by
        intro hnone
        rw [hnone] at hb
        exact absurd hb (by decide)
      simp [step, handler, interpretGenericMessages, hstop, hb2]
    | operation_aborted => exact ⟨_, rfl, rfl⟩
    | failure =>
      refine ⟨_, rfl, ?_⟩
      simp [restApiInitiateConnection, hstop]
  · intro url endpoint
    exact ⟨⟨_, rfl, by simp [restApiConnectToResolvedNames, issue]⟩,
           ⟨_, rfl, by simp [websockConnectToResolvedNames, issue]⟩⟩
  · intro hstream request token connectId text
    refine ⟨?_, ?_, ?_, ?_, ?_, ?_⟩
    · intro hsni
      constructor
      · refine ⟨issue .restTlsHandshake
          { self with m_ioContext := self.m_ioContext.erase .restConnect }, ?_, rfl⟩
        simp [step, handler, restApiPerformSSLHandshake, requireStream, hstream, hsni,
          Except.bind]
      · refine ⟨issue .wsTlsHandshake
          { self with m_ioContext := self.m_ioContext.erase .wsConnect }, ?_, rfl⟩
        simp [step, handler, websockPerformSSLHandshake, negotiateWebsocketConnection,
          requireStream, hstream, hsni, Except.bind]
    · refine ⟨issue (.restWrite (if self.m_isSpotTrade then kucoin_spot_http_request
          else kucoin_futures_http_request))
          { self with m_ioContext := self.m_ioContext.erase .restTlsHandshake }, ?_, rfl⟩
      simp [step, handler, restApiSendRequest, requireStream, hstream, Except.bind]
    · refine ⟨issue .restRead
          { self with m_ioContext := self.m_ioContext.erase (.restWrite request),
                      m_readWriteBuffer := some .null, m_response := some .null }, ?_, rfl⟩
      simp [step, handler, restApiReceiveResponse, requireStream, hstream, Except.bind]
    · intro hservers
      refine ⟨issue (.wsHandshake self.m_websocketToken (get_random_string 10 input.gen))
          { self with m_ioContext := self.m_ioContext.erase .wsTlsHandshake }, ?_, rfl⟩
      simp [step, handler, performWebsocketHandshake, requireStream, hstream, hservers,
        Except.bind]
    · refine ⟨issue .wsRead
          { self with m_ioContext := self.m_ioContext.erase (.wsHandshake token connectId),
                      m_readWriteBuffer := some .null }, ?_, rfl⟩
      simp [step, handler, waitForMessages, requireStream, hstream, Except.bind]
    · refine ⟨issue .wsRead
          { self with m_ioContext := self.m_ioContext.erase (.wsWrite text),
                      m_tokensSubscribedFor := true, m_readWriteBuffer := some .null }, ?_, rfl⟩
      simp [step, handler, waitForMessages, requireStream, hstream, Except.bind]

set_option maxRecDepth 100000 in
/-- A witness of C8: the streaming state of the example run with shutdown
requested. A frame that arrives then is read and nothing follows it. -/
theorem stop_flag_gates_witness :
    ∃ next, step false (requestStop streamingState)
        (.complete .wsRead .success (exampleInput (.obj futuresTickerFrame))) = .ok next ∧
      next.m_ioContext = (requestStop streamingState).m_ioContext.erase .wsRead :=
  (stop_flag_gates false (requestStop streamingState) (exampleInput (.obj futuresTickerFrame))
    (by decide)).1.2.2.2 .success (fun _ => by decide)

set_option maxRecDepth 100000 in
/-- The counterexample to C8 as stated. Shutdown is requested while the REST
resolve of the run of `main` is outstanding; the resolve then completes, and
its handler starts the connect although the flag is set. The same happens
further on: with the flag set, the handler of the subscribe write starts a read. -/
theorem stop_flag_gates_counterexample :
    observe (run false (kc_websocket.new .futures) (startedRun ++ [.requestStop])) =
      some ([.restResolve "api-futures.kucoin.com"], false, true, .ResolvingRest) ∧
    observe (run false (kc_websocket.new .futures) (startedRun ++ [.requestStop,
        .complete (.restResolve "api-futures.kucoin.com") .success (exampleInput .null)])) =
      some ([.restConnect], true, true, .ConnectingRest) ∧
    observe (run false (kc_websocket.new .futures) (bootstrapRun ++ sessionEvents.take 5 ++
        [.requestStop,
         .complete (.wsWrite (subscriptionText false 42 "XBTUSDTM,ETHUSDTM")) .success
           (exampleInput .null)])) =
      some ([.wsRead], true, true, .Streaming) := by
  decide

/-- A sequence of two fallible calls returns only when both do. -/
theorem ok_bind {α β : Type} {x : Except Failure α} {f : α → Except Failure β} {y : β}
    (h : x.bind f = .ok y) : ∃ a, x = .ok a ∧ f a = .ok y := by
  cases x with
  | error e => cases h
  | ok a => exact ⟨a, rfl, h⟩

/-- `restApiInitiateConnection` leaves the composed message as it is and starts
at most one operation. -/
theorem restApiInitiateConnection_message (self : kc_websocket) :
    (restApiInitiateConnection self).m_subscriptionString = self.m_subscriptionString ∧
    (restApiInitiateConnection self).m_ioContext.length ≤ self.m_ioContext.length + 1 := by
  unfold restApiInitiateConnection
  split <;> exact ⟨rfl, by simp [issue]⟩

/-- `initiateWebsocketConnection` leaves the composed message as it is and
starts at most one operation. -/
theorem initiateWebsocketConnection_message (self : kc_websocket) :
    (initiateWebsocketConnection self).m_subscriptionString = self.m_subscriptionString ∧
    (initiateWebsocketConnection self).m_ioContext.length ≤ self.m_ioContext.length + 1 := by
  unfold initiateWebsocketConnection
  split
  · exact ⟨rfl, by simp⟩
  · simp only []
    split <;> exact ⟨rfl, by simp [issue]⟩

/-- `waitForMessages` leaves the composed message as it is and starts at most
one operation. -/
theorem waitForMessages_message (self next : kc_websocket)
    (h : waitForMessages self = .ok next) :
    next.m_subscriptionString = self.m_subscriptionString ∧
    next.m_ioContext.length ≤ self.m_ioContext.length + 1 := by
  unfold waitForMessages at h
  obtain ⟨_, -, h⟩ := ok_bind h
  cases h
  exact ⟨rfl, by simp [issue]⟩

/-- `makeSubscription` leaves a composed message as it is and starts at most
one operation. -/
theorem makeSubscription_message (raw : Nat) (self next : kc_websocket)
    (h : makeSubscription raw self = .ok next) :
    (empty self.m_subscriptionString = false →
      next.m_subscriptionString = self.m_subscriptionString) ∧
    next.m_ioContext.length ≤ self.m_ioContext.length + 1 := by
  unfold makeSubscription at h
  obtain ⟨_, -, h⟩ := ok_bind h
  cases h
  constructor
  · intro hcomposed
    simp [issue, composeSubscription, hcomposed]
  · unfold composeSubscription
    split <;> simp [issue]

/-- `restApiInterpretHttpResponse` leaves the composed message as it is and
starts at most one operation. -/
theorem restApiInterpretHttpResponse_message (ndebug : Bool) (self next : kc_websocket)
    (h : restApiInterpretHttpResponse ndebug self = .ok next) :
    next.m_subscriptionString = self.m_subscriptionString ∧
    next.m_ioContext.length ≤ self.m_ioContext.length + 1 := by
  unfold restApiInterpretHttpResponse at h
  split at h
  · cases h
  · obtain ⟨jsonObject, -, h⟩ := ok_bind h
    split at h
    · cases h; exact ⟨rfl, by simp⟩
    · obtain ⟨codeText, -, h⟩ := ok_bind h
      split at h
      · cases h; exact ⟨rfl, by simp⟩
      · split at h
        · cases h; exact ⟨rfl, by simp⟩
        · split at h
          · cases h; exact ⟨rfl, by simp⟩
          · obtain ⟨dataObject, -, h⟩ := ok_bind h
            obtain ⟨token, -, h⟩ := ok_bind h
            obtain ⟨serverInstances, -, h⟩ := ok_bind h
            obtain ⟨servers, -, h⟩ := ok_bind h
            simp only [] at h
            split at h
            · cases h
              exact initiateWebsocketConnection_message _
            · cases h; exact ⟨rfl, by simp⟩

/-- A completion handler leaves a composed message as it is and starts at most
one operation. -/
theorem handler_message (ndebug : Bool) (op : AsyncOp) (ec : error_code) (input : Input)
    (self next : kc_websocket)
    (h : handler ndebug op ec input self = .ok next) :
    (empty self.m_subscriptionString = false →
      next.m_subscriptionString = self.m_subscriptionString) ∧
    next.m_ioContext.length ≤ self.m_ioContext.length + 1 := by
  unfold handler at h
  cases op
  case restResolve url =>
    simp only [] at h
    split at h <;> cases h <;>
      exact ⟨fun _ => rfl, by simp [restApiConnectToResolvedNames, issue]⟩
  case restConnect =>
    simp only [] at h
    split at h
    · cases h; exact ⟨fun _ => rfl, by simp⟩
    · unfold restApiPerformSSLHandshake at h
      obtain ⟨_, -, h⟩ := ok_bind h
      split at h <;> cases h <;> exact ⟨fun _ => rfl, by simp [issue]⟩
  case restTlsHandshake =>
    simp only [] at h
    split at h
    · cases h; exact ⟨fun _ => rfl, by simp⟩
    · unfold restApiSendRequest at h
      obtain ⟨_, -, h⟩ := ok_bind h
      cases h; exact ⟨fun _ => rfl, by simp [issue]⟩
  case restWrite request =>
    simp only [] at h
    split at h
    · cases h; exact ⟨fun _ => rfl, by simp⟩
    · unfold restApiReceiveResponse at h
      obtain ⟨_, -, h⟩ := ok_bind h
      cases h; exact ⟨fun _ => rfl, by simp [issue]⟩
  case restRead =>
    simp only [] at h
    split at h
    · cases h; exact ⟨fun _ => rfl, by simp⟩
    · split at h
      · cases h
      · have hkeep := restApiInterpretHttpResponse_message ndebug _ next h
        exact ⟨fun _ => hkeep.1, hkeep.2⟩
  case wsResolve endpoint =>
    simp only [] at h
    split at h <;> cases h <;>
      exact ⟨fun _ => rfl, by simp [websockConnectToResolvedNames, issue]⟩
  case wsConnect =>
    simp only [] at h
    split at h
    · cases h; exact ⟨fun _ => rfl, by simp⟩
    · unfold websockPerformSSLHandshake at h
      obtain ⟨_, -, h⟩ := ok_bind h
      split at h
      · cases h; exact ⟨fun _ => rfl, by simp⟩
      · unfold negotiateWebsocketConnection at h
        obtain ⟨_, -, h⟩ := ok_bind h
        cases h; exact ⟨fun _ => rfl, by simp [issue]⟩
  case wsTlsHandshake =>
    simp only [] at h
    split at h
    · cases h; exact ⟨fun _ => rfl, by simp⟩
    · obtain ⟨_, -, h⟩ := ok_bind h
      unfold performWebsocketHandshake at h
      split at h
      · cases h
      · obtain ⟨_, -, h⟩ := ok_bind h
        cases h; exact ⟨fun _ => rfl, by simp [issue]⟩
  case wsHandshake token connectId =>
    simp only [] at h
    split at h
    · cases h; exact ⟨fun _ => rfl, by simp⟩
    · have hkeep := waitForMessages_message _ next h
      exact ⟨fun _ => hkeep.1, hkeep.2⟩
  case wsRead =>
    simp only [] at h
    split at h
    · cases h; exact ⟨fun _ => rfl, by simp⟩
    · cases h
      have hkeep := restApiInitiateConnection_message { self with m_sslWebStream := false }
      exact ⟨fun _ => hkeep.1, hkeep.2⟩
    · split at h
      · cases h
      · unfold interpretGenericMessages at h
        split at h
        · cases h; exact ⟨fun _ => rfl, by simp⟩
        · simp only [] at h
          obtain ⟨_, -, h⟩ := ok_bind h
          split at h
          · have hkeep := makeSubscription_message _ _ next h
            exact hkeep
          · have hkeep := waitForMessages_message _ next h
            exact ⟨fun _ => hkeep.1, hkeep.2⟩
  case wsWrite text =>
    simp only [] at h
    split at h
    · cases h; exact ⟨fun _ => rfl, by simp⟩
    · have hkeep := waitForMessages_message _ next h
      exact ⟨fun _ => hkeep.1, hkeep.2⟩

/-- A step leaves a composed message as it is. -/
theorem step_message (ndebug : Bool) (self next : kc_websocket) (e : Event)
    (hcomposed : empty self.m_subscriptionString = false)
    (h : step ndebug self e = .ok next) :
    next.m_subscriptionString = self.m_subscriptionString := by
  cases e with
  | addSubscription tokenName =>
    cases h
    unfold addSubscription
    split <;> rfl
  | startFetching =>
    cases h
    exact (restApiInitiateConnection_message self).1
  | requestStop => cases h; rfl
  | complete op ec input =>
    have hkeep := (handler_message ndebug op ec input _ next h).1 (by exact hcomposed)
    exact hkeep
  | control frameType =>
    cases h
    cases frameType
    · exact (restApiInitiateConnection_message _).1
    · rfl
    · rfl

/-- Every step but two keeps the client at one outstanding operation at most:
the exceptions are the close control frame, whose callback starts a resolve
beside the outstanding read, and a call of `startFetching` on a client that is
already running. -/
theorem step_one_outstanding (ndebug : Bool) (self next : kc_websocket) (e : Event)
    (hone : self.m_ioContext.length ≤ 1)
    (henabled : enabled self e = true)
    (hstep : step ndebug self e = .ok next)
    (hclose : ∀ frameType, e = .control frameType → frameType ≠ .close)
    (hstart : e = .startFetching → self.m_ioContext = []) :
    next.m_ioContext.length ≤ 1 := by
  cases e with
  | addSubscription tokenName =>
    cases hstep
    unfold addSubscription
    split <;> exact hone
  | startFetching =>
    cases hstep
    have hlen := (restApiInitiateConnection_message self).2
    rw [hstart rfl] at hlen
    exact hlen
  | requestStop => cases hstep; exact hone
  | complete op ec input =>
    have hmem : op ∈ self.m_ioContext := by simpa [enabled] using henabled
    have hlen := (handler_message ndebug op ec input _ next hstep).2
    have herase : (self.m_ioContext.erase op).length = self.m_ioContext.length - 1 :=
      List.length_erase_of_mem hmem
    have hpos : 0 < self.m_ioContext.length := List.length_pos_of_mem hmem
    simp only [herase] at hlen
    omega
  | control frameType =>
    cases hstep
    cases frameType
    · exact absurd rfl (hclose _ rfl)
    · exact hone
    · exact hone

/-- A run without a close control frame (and without a further `startFetching`)
keeps the client at one outstanding operation at most. -/
theorem run_one_outstanding (ndebug : Bool) (events : List Event) (start final : kc_websocket)
    (hone : start.m_ioContext.length ≤ 1)
    (hordinary : ∀ e ∈ events, ordinary e = true)
    (hrun : run ndebug start events = some final) :
    final.m_ioContext.length ≤ 1 := by
  induction events generalizing start with
  | nil =>
    simp only [run, Option.some.injEq] at hrun
    rw [← hrun]
    exact hone
  | cons e rest ih =>
    have he := hordinary e (List.mem_cons_self _ _)
    unfold run at hrun
    split at hrun
    · rename_i henabled
      split at hrun
      · rename_i next hstep
        refine ih next ?_ (fun e2 h2 => hordinary e2 (List.mem_cons_of_mem _ h2)) hrun
        refine step_one_outstanding ndebug start next e hone henabled hstep ?_ ?_
        · intro frameType hcontrol hclose
          subst hcontrol hclose
          exact absurd he (by decide)
        · intro hstart
          subst hstart
          exact absurd he (by decide)
      · cases hrun
    · cases hrun

/-- The composed message is the same in every later state. -/
theorem reachable_message (ndebug : Bool) (start next : kc_websocket)
    (hcomposed : empty start.m_subscriptionString = false)
    (h : Reachable ndebug start next) :
    next.m_subscriptionString = start.m_subscriptionString := by
  induction h with
  | refl => rfl
  | step self next e _ _ hstep ih =>
    rw [← ih]
    exact step_message ndebug self next e (by rw [ih]; exact hcomposed) hstep

/-- The text `subscriptionText` composes is never empty. -/
theorem subscriptionText_not_empty (isSpot : Bool) (id : Nat) (tokenList : String) :
    empty (subscriptionText isSpot id tokenList) = false := by
  cases isSpot <;> simp [subscriptionText, empty, String.data_append]

/-- C10, as the code has it. The first `makeSubscription` of a client composes
the message from the watch list, clears the watch list at once, and leaves the
write outstanding and the subscribed flag as it was: the list is cleared before
the write is confirmed. The composed message is kept: in every state reached
afterwards, through reconnects and whatever `addSubscription` calls,
`m_subscriptionString` is that same text and a later `makeSubscription` writes
it again, with the symbols of the first message and not an empty list. -/
theorem makeSubscription_keeps_first_message (ndebug : Bool) (raw : Nat) (self : kc_websocket)
    (hstream : self.m_sslWebStream = true)
    (hfirst : empty self.m_subscriptionString = true) :
    ∃ first, makeSubscription raw self = .ok first ∧
      first.m_tokenList = "" ∧
      first.m_tokensSubscribedFor = self.m_tokensSubscribedFor ∧
      first.m_ioContext = self.m_ioContext ++ [AsyncOp.wsWrite first.m_subscriptionString] ∧
      first.m_subscriptionString =
        subscriptionText self.m_isSpotTrade (get_random_integer raw) self.m_tokenList ∧
      ∀ later, Reachable ndebug first later →
        later.m_subscriptionString = first.m_subscriptionString ∧
        ∀ raw2, later.m_sslWebStream = true →
          makeSubscription raw2 later =
            .ok (issue (.wsWrite first.m_subscriptionString) later) := by
  have hcompose : composeSubscription raw self =
      { self with
        m_subscriptionString :=
          subscriptionText self.m_isSpotTrade (get_random_integer raw) self.m_tokenList
        m_tokenList := "" } := by
    simp [composeSubscription, hfirst]
  refine ⟨issue (.wsWrite (subscriptionText self.m_isSpotTrade (get_random_integer raw)
      self.m_tokenList)) (composeSubscription raw self), ?_, ?_, ?_, ?_, ?_, ?_⟩
  · simp [makeSubscription, requireStream, hcompose, hstream, Except.bind]
  · simp [issue, hcompose]
  · simp [issue, hcompose]
  · simp [issue, hcompose]
  · simp [issue, hcompose]
  · intro later hlater
    have hcomposed : empty (issue (.wsWrite (subscriptionText self.m_isSpotTrade
        (get_random_integer raw) self.m_tokenList))
        (composeSubscription raw self)).m_subscriptionString = false := by
      simp only [issue, hcompose]
      exact subscriptionText_not_empty _ _ _
    have hkeep := reachable_message ndebug _ later hcomposed hlater
    refine ⟨hkeep, ?_⟩
    intro raw2 hs
    have hne : empty later.m_subscriptionString = false := by rw [hkeep]; exact hcomposed
    have hcached : composeSubscription raw2 later = later := by
      simp [composeSubscription, hne]
    rw [← hkeep]
    simp [makeSubscription, hcached, requireStream, hs, Except.bind]

/-- A witness of C10: the first message of the futures client of `main`. -/
theorem makeSubscription_keeps_first_message_witness :
    ∃ first, makeSubscription 41
        (addSubscriptions ["XBTUSDTM", "ETHUSDTM"] (exampleConnected .futures)) = .ok first ∧
      first.m_tokenList = "" ∧
      first.m_tokensSubscribedFor = false ∧
      first.m_ioContext = [] ++ [AsyncOp.wsWrite first.m_subscriptionString] ∧
      first.m_subscriptionString = subscriptionText false 42 "XBTUSDTM,ETHUSDTM" ∧
      ∀ later, Reachable false first later →
        later.m_subscriptionString = first.m_subscriptionString ∧
        ∀ raw2, later.m_sslWebStream = true →
          makeSubscription raw2 later =
            .ok (issue (.wsWrite first.m_subscriptionString) later) :=
  makeSubscription_keeps_first_message false 41
    (addSubscriptions ["XBTUSDTM", "ETHUSDTM"] (exampleConnected .futures))
    (by decide) (by decide)

set_option maxRecDepth 100000 in
/-- The counterexample to C10 as stated. The run of `main` streams, the read
fails, the client bootstraps again and meets the first frame of its second
session, with no `addSubscription` call in between: the watch list is empty,
yet the message written is the text of the first session, whose topic carries
both symbols and is not the bare `/contractMarket/ticker:`. -/
theorem makeSubscription_keeps_first_message_counterexample :
    outstandingSubscribe (run false (kc_websocket.new .futures)
        (bootstrapRun ++ sessionEvents.take 5)) =
      some (subscriptionText false 42 "XBTUSDTM,ETHUSDTM") ∧
    (run false (kc_websocket.new .futures) (streamingRun ++ secondSessionEvents)).map
        (fun client => client.m_tokenList) = some "" ∧
    outstandingSubscribe (run false (kc_websocket.new .futures)
        (streamingRun ++ secondSessionEvents)) =
      some (subscriptionText false 42 "XBTUSDTM,ETHUSDTM") ∧
    (readJson (subscriptionText false 42 "XBTUSDTM,ETHUSDTM")).bind (stringMember "topic") =
      some "/contractMarket/ticker:XBTUSDTM,ETHUSDTM" ∧
    "/contractMarket/ticker:XBTUSDTM,ETHUSDTM" ≠ futures_data_topic := by
  decide

set_option maxRecDepth 100000 in
/-- C9, the code at the failing input. The run of `main` streams with the read
as its one outstanding operation. A close control frame arrives: the callback
starts the REST resolve of a new attempt while the read of the old attempt is
still outstanding. If that read then completes with an error other than the
cancellation, its handler starts a second REST resolve beside the first. The
failed read alone, the other way into a restart, leaves one operation. -/
theorem close_frame_overlapping_attempts :
    observe (run false (kc_websocket.new .futures) streamingRun) =
      some ([.wsRead], true, false, .Streaming) ∧
    observe (run false (kc_websocket.new .futures) (streamingRun ++ [.control .close])) =
      some ([.wsRead, .restResolve "api-futures.kucoin.com"], false, false, .ResolvingRest) ∧
    observe (run false (kc_websocket.new .futures) (streamingRun ++
        [.control .close, .complete .wsRead .failure (exampleInput .null)])) =
      some ([.restResolve "api-futures.kucoin.com", .restResolve "api-futures.kucoin.com"],
        false, false, .ResolvingRest) ∧
    observe (run false (kc_websocket.new .futures) (streamingRun ++
        [.complete .wsRead .failure (exampleInput .null)])) =
      some ([.restResolve "api-futures.kucoin.com"], false, false, .ResolvingRest) := by
  decide

end korrelator
